import Mathlib

/-!
Shallow embedding of the ticket-classifier repository: the customer-info
extractor, the configuration loader, the DSN builder, the persistence
writer (customer upsert and ticket insert inside one transaction), the
output-validation schema, and the single-ticket and batch orchestrators.
Pure Python functions become Lean functions; the database becomes an
explicit state; fallible steps return Except/Option.
-/

namespace TC

/-- Python ASCII whitespace, as stripped by str.strip: space, tab, LF, VT, FF, CR. -/
def pyIsSpace (c : Char) : Bool :=
  c = ' ' || c = '\t' || c = '\n' || c = Char.ofNat 11 || c = Char.ofNat 12 || c = '\r'

/-- str.strip on a character list: drop whitespace from both ends. -/
def pyStripL (cs : List Char) : List Char :=
  ((cs.dropWhile pyIsSpace).reverse.dropWhile pyIsSpace).reverse

/-- str.strip on a string. -/
def pyStrip (s : String) : String := String.mk (pyStripL s.toList)

/-- str.lower, character-wise (ASCII case mapping). -/
def pyLower (cs : List Char) : List Char := cs.map Char.toLower

/-- str.split(sep) for a one-character separator: Python semantics, so the
empty string splits to a single empty piece and separators at the ends
produce empty pieces. -/
def pySplit (sep : Char) : List Char → List (List Char)
  | [] => [[]]
  | c :: rest =>
    if c = sep then [] :: pySplit sep rest
    else
      match pySplit sep rest with
      | p :: ps => (c :: p) :: ps
      | [] => [[c]]

/-- List startsWith, by decidable character equality. -/
def startsList : List Char → List Char → Bool
  | [], _ => true
  | _ :: _, [] => false
  | p :: ps, c :: cs => p = c && startsList ps cs

/-- Python substring containment: pat in s. -/
def hasSubstr (pat : List Char) : List Char → Bool
  | [] => startsList pat []
  | c :: cs => startsList pat (c :: cs) || hasSubstr pat cs

/-- The regex \w for ASCII text: letters, digits, underscore. -/
def isWordChar (c : Char) : Bool := c.isAlphanum || c = '_'

/-- The regex class [A-Za-z0-9._%+-] (the local part of the email pattern). -/
def isLocalChar (c : Char) : Bool :=
  c.isAlphanum || c = '.' || c = '_' || c = '%' || c = '+' || c = '-'

/-- The regex class [A-Za-z0-9.-] (the domain part of the email pattern). -/
def isDomainChar (c : Char) : Bool := c.isAlphanum || c = '.' || c = '-'

/-- The regex class [A-Z|a-z] of the email pattern: letters and a literal pipe. -/
def isTldChar (c : Char) : Bool := c.isAlpha || c = '|'

/-- Word-ness of an optional character: positions outside the string count as
non-word. -/
def isWordO (oc : Option Char) : Bool :=
  match oc with
  | some c => isWordChar c
  | none => false

/-- The regex \b between two neighboring positions, given the characters on
either side: word-ness changes across the position. -/
def boundaryOC (prev cur : Option Char) : Bool := isWordO prev != isWordO cur

/-- Backtracking for the tail [A-Z|a-z]\x7b2,\x7d\b of the email pattern over the
suffix holding the candidate run: try the candidate length (greedy, longest
first), then shorter, never below two, asking for a boundary after the run. -/
def tryTld (restT : List Char) : Nat → Option Nat
  | 0 => none
  | 1 => none
  | (m + 2) =>
    if boundaryOC restT[m + 1]? restT[m + 2]? then some (m + 2) else tryTld restT (m + 1)

/-- Backtracking for [A-Za-z0-9.-]+\. of the email pattern over the suffix
right after the at-sign: try the candidate domain length (greedy, longest
first), requiring a dot right after it; returns the length of the matched
domain-dot-tld span. -/
def tryDomain (rest3 : List Char) : Nat → Option Nat
  | 0 => none
  | (k + 1) =>
    match
      (if rest3[k + 1]? = some '.' then
        (tryTld (rest3.drop (k + 2)) ((rest3.drop (k + 2)).takeWhile isTldChar).length).map
          (fun t => k + 2 + t)
      else none) with
    | some e => some e
    | none => tryDomain rest3 k

/-- One attempt of the whole email pattern at the position whose preceding
character is prev and whose suffix is rest; returns the match length on
success. The local part cannot backtrack: the at-sign is not in its class, so
only the maximal run can precede it. -/
def matchEmailLen (prev : Option Char) (rest : List Char) : Option Nat :=
  if boundaryOC prev rest.head? then
    let l := (rest.takeWhile isLocalChar).length
    if l = 0 then none
    else
      match rest.drop l with
      | '@' :: rest3 =>
        match tryDomain rest3 ((rest3.takeWhile isDomainChar).length) with
        | some d => some (l + 1 + d)
        | none => none
      | _ => none
  else none

/-- The scan of re.findall: try each position left to right, carrying the
character before the position for the boundary test. -/
def scanEmail (prev : Option Char) (rest : List Char) : Option (List Char) :=
  match matchEmailLen prev rest with
  | some len => some (rest.take len)
  | none =>
    match rest with
    | [] => none
    | c :: rest2 => scanEmail (some c) rest2

/-- The first match of the email pattern in s, exactly as it appears
(re.findall(pattern, s)[0] when a match exists). -/
def firstEmail (s : List Char) : Option (List Char) := scanEmail none s

/-- The token looked for in each line, lowercased (the Python literal "name:"). -/
def nameToken : List Char := ['n', 'a', 'm', 'e', ':']

/-- The line loop of extract_customer_info: first line whose lowercasing
contains "name:" and that splits on colons into more than one part gives the
stripped second part. -/
def findNameIn : List (List Char) → Option (List Char)
  | [] => none
  | line :: rest =>
    if hasSubstr nameToken (pyLower line) then
      match pySplit ':' line with
      | _ :: p1 :: _ => some (pyStripL p1)
      | _ => findNameIn rest
    else findNameIn rest

/-- The record returned by extract_customer_info. -/
structure CustomerInfo where
  email : String
  name : String
deriving DecidableEq, Repr

/-- extract_customer_info from src/main.py: first regex match for the email
(default "unknown@example.com"), line scan for the name (default
"Unknown Customer"; the Python or-default also replaces an empty string). -/
def extract_customer_info (ticket_content : String) : CustomerInfo :=
  let email : Option String := (firstEmail ticket_content.toList).map String.mk
  let name : Option (List Char) := findNameIn (pySplit '\n' ticket_content.toList)
  { email := email.getD ("unknown@example.com")
    name :=
      match name with
      | some n => if n = [] then "Unknown Customer" else String.mk n
      | none => "Unknown Customer" }

/-- Digit groups of a Python decimal int literal: digits with single
underscores allowed only between digits. -/
def validDigits : List Char → Bool
  | [] => false
  | [c] => c.isDigit
  | c :: '_' :: rest =>
    (c.isDigit && (match rest with
      | r :: _ => r.isDigit
      | [] => false)) && validDigits rest
  | c :: rest => c.isDigit && validDigits rest

/-- Numeric value of a digit group, underscores skipped. -/
def digitsVal (cs : List Char) : Nat :=
  (cs.filter (fun c => c ≠ '_')).foldl (fun a c => a * 10 + (c.toNat - 48)) 0

/-- Python int(s): surrounding whitespace stripped, an optional sign, then an
underscore-grouped decimal literal; anything else raises ValueError (none). -/
def parsePyInt (s : String) : Option Int :=
  match pyStripL s.toList with
  | [] => none
  | c :: rest =>
    if c = '-' then (if validDigits rest then some (-(digitsVal rest : Int)) else none)
    else if c = '+' then (if validDigits rest then some ((digitsVal rest : Nat) : Int) else none)
    else if validDigits (c :: rest) then some ((digitsVal (c :: rest) : Nat) : Int) else none

/-- Settings from src/config/settings.py. -/
structure Settings where
  gemini_api_key : String
  db_host : String
  db_port : Int
  db_name : String
  db_user : String
  db_password : String
deriving DecidableEq, Repr

/-- Decidable equality on Except so concrete outcomes evaluate with decide. -/
instance exceptDecEq {e a : Type} [DecidableEq e] [DecidableEq a] :
    DecidableEq (Except e a) := fun x y =>
  match x, y with
  | Except.ok v, Except.ok w =>
    if h : v = w then isTrue (by rw [h]) else isFalse (fun hh => h (by injection hh))
  | Except.error v, Except.error w =>
    if h : v = w then isTrue (by rw [h]) else isFalse (fun hh => h (by injection hh))
  | Except.ok _, Except.error _ => isFalse (fun hh => Except.noConfusion hh)
  | Except.error _, Except.ok _ => isFalse (fun hh => Except.noConfusion hh)

/-- The required environment variables, in the order the source lists them. -/
def required_vars : List String :=
  ["GEMINI_API_KEY", "DB_HOST", "DB_PORT", "DB_NAME", "DB_USER", "DB_PASSWORD"]

/-- The process environment: a lookup from variable name to value (os.getenv). -/
def EnvMap : Type := String → Option String

/-- The falsy test of the source: not os.getenv(var) holds when the variable is
unset or set to the empty string. -/
def envFalsy (env : EnvMap) (v : String) : Bool :=
  match env v with
  | none => true
  | some s => s = ""

/-- The missing_vars list of Settings.from_env. -/
def missingVars (env : EnvMap) : List String := required_vars.filter (envFalsy env)

/-- os.getenv(var, default). -/
def getenvD (env : EnvMap) (v d : String) : String := (env v).getD d

/-- Settings.from_env from src/config/settings.py: check the required variables
with the falsy test, then build the record, with DB_PORT going through int()
(which raises ValueError on a non-numeric string). -/
def Settings.from_env (env : EnvMap) : Except String Settings :=
  if missingVars env ≠ [] then
    Except.error ("Missing required environment variables: "
      ++ String.intercalate ", " (missingVars env))
  else
    match parsePyInt (getenvD env "DB_PORT" "5432") with
    | none =>
      Except.error ("invalid literal for int() with base 10: " ++ getenvD env "DB_PORT" "5432")
    | some port =>
      Except.ok
        { gemini_api_key := getenvD env "GEMINI_API_KEY" ""
          db_host := getenvD env "DB_HOST" ""
          db_port := port
          db_name := getenvD env "DB_NAME" ""
          db_user := getenvD env "DB_USER" ""
          db_password := getenvD env "DB_PASSWORD" "" }

/-- UTF-8 bytes of one character. -/
def utf8Bytes (c : Char) : List Nat :=
  let n := c.toNat
  if n < 128 then [n]
  else if n < 2048 then [192 + n / 64, 128 + n % 64]
  else if n < 65536 then [224 + n / 4096, 128 + (n / 64) % 64, 128 + n % 64]
  else [240 + n / 262144, 128 + (n / 4096) % 64, 128 + (n / 64) % 64, 128 + n % 64]

/-- One uppercase hexadecimal digit (of the argument taken modulo 16). -/
def hexDigitU (n : Nat) : Char :=
  let m := n % 16
  if m < 10 then Char.ofNat (48 + m) else Char.ofNat (55 + m)

/-- A percent-escape for one byte, uppercase hex as urllib produces. -/
def percentByte (b : Nat) : List Char := ['%', hexDigitU (b / 16), hexDigitU b]

/-- urllib's always-safe characters: ASCII letters, digits, and the four marks
underscore, dot, minus, tilde. -/
def alwaysSafe (c : Char) : Bool :=
  c.isAlphanum || c = '_' || c = '.' || c = '-' || c = '~'

/-- urllib.parse.quote for one character given the extra safe characters: safe
characters pass through, anything else is percent-escaped byte by byte. -/
def quoteChar (safe : List Char) (c : Char) : List Char :=
  if alwaysSafe c || safe.contains c then [c]
  else (utf8Bytes c).foldr (fun b acc => percentByte b ++ acc) []

/-- urllib.parse.quote with the safe-set given as characters. -/
def quote (s : String) (safe : List Char) : String :=
  String.mk (s.toList.foldr (fun c acc => quoteChar safe c ++ acc) [])

/-- urllib.parse.quote_plus: when the string has a space, quote it keeping the
space safe and then replace every space by a plus; otherwise plain quote with
an empty safe-set. -/
def quote_plus (s : String) : String :=
  if s.toList.contains ' ' then
    String.mk ((quote s [' ']).toList.map (fun c => if c = ' ' then '+' else c))
  else quote s []

/-- Settings.database_dsn from src/config/settings.py. -/
def Settings.database_dsn (st : Settings) : String :=
  "postgresql://" ++ quote_plus st.db_user ++ ":" ++ quote_plus st.db_password ++ "@"
    ++ st.db_host ++ ":" ++ toString st.db_port ++ "/" ++ st.db_name

/-- Plain percent-encoding as the claim words it (RFC 3986): the unreserved
characters pass and every other byte, a space included, becomes a
percent-escape. Stated from the spec, for comparison with the source. -/
def percentEncode (s : String) : String :=
  String.mk (s.toList.foldr (fun c acc => quoteChar [] c ++ acc) [])

/-- The claim's wording of the DSN: plain percent-encoded user and password
spliced into the URL. -/
def specDsn (st : Settings) : String :=
  "postgresql://" ++ percentEncode st.db_user ++ ":" ++ percentEncode st.db_password ++ "@"
    ++ st.db_host ++ ":" ++ toString st.db_port ++ "/" ++ st.db_name

/-- The form-style encoding of one character: safe characters pass, a space
becomes a plus, every other byte a percent-escape. -/
def formEncodeChar (c : Char) : List Char :=
  if alwaysSafe c then [c]
  else if c = ' ' then ['+']
  else (utf8Bytes c).foldr (fun b acc => percentByte b ++ acc) []

/-- The amended wording of the encoding: percent-encoding in the form variant
where a space encodes as a plus sign. -/
def formEncode (s : String) : String :=
  String.mk (s.toList.foldr (fun c acc => formEncodeChar c ++ acc) [])

/-- SAMPLE_TICKET from src/main.py, verbatim. -/
def SAMPLE_TICKET : String :=
  "
Subject: Billing Error - Charged Twice This Month!

Hello,

I just checked my bank statement and noticed I was charged TWICE for my monthly subscription!
This is completely unacceptable. I've been a loyal customer for over 2 years and this has never
happened before.

I need this fixed IMMEDIATELY and I want a full refund for the duplicate charge. This better
not happen again or I'm canceling my subscription.

My account email is: sarah.johnson@email.com
Account name: Sarah Johnson

Please respond ASAP.

Frustrated,
Sarah Johnson
"

/-- Content of TEST_TICKETS[0] from scripts/add_test_tickets.py, verbatim. -/
def testTicket0 : String :=
  "
Subject: Billing Error - Charged Twice This Month!

Hello,

I just checked my bank statement and noticed I was charged TWICE for my monthly subscription!
This is completely unacceptable. I've been a loyal customer for over 2 years and this has never
happened before.

I need this fixed IMMEDIATELY and I want a full refund for the duplicate charge. This better
not happen again or I'm canceling my subscription.

My account email is: sarah.johnson@email.com
Account name: Sarah Johnson

Please respond ASAP.

Frustrated,
Sarah Johnson
"

/-- Content of TEST_TICKETS[1] from scripts/add_test_tickets.py, verbatim. -/
def testTicket1 : String :=
  "
Subject: Can't login to my account

Hi there,

I've been trying to log into my account for the past hour but I keep getting an error message
saying \"Invalid credentials\" even though I'm 100% sure my password is correct. I've tried
resetting it twice already and the same issue happens.

This is really frustrating because I need to access my dashboard for an important presentation
tomorrow morning.

Account email: mike.chen@techcorp.com
Account name: Mike Chen

Thanks for your help.

Mike
"

/-- Content of TEST_TICKETS[2] from scripts/add_test_tickets.py, verbatim. -/
def testTicket2 : String :=
  "
Subject: Feature Request - Dark Mode

Hello!

I absolutely love your product! I use it every day and it's been a game-changer for my workflow.

I was wondering if you could add a dark mode option? I often work late at night and it would
be much easier on my eyes. I noticed some of your competitors have this feature and it would
be amazing to have it in your app too.

Keep up the great work!

Best regards,
Account name: Emma Wilson
Account email: emma.wilson@design.io
"

/-- Content of TEST_TICKETS[3] from scripts/add_test_tickets.py, verbatim. -/
def testTicket3 : String :=
  "
Subject: Question about pricing plans

Hi,

I'm currently on the Basic plan and I'm considering upgrading to Pro. Could you explain what
the main differences are? I see that Pro has \"advanced analytics\" but I'm not sure what that
includes exactly.

Also, if I upgrade mid-month, will I be charged the full amount or prorated?

Thanks!

Account name: James Rodriguez
Account email: j.rodriguez@startup.com
"

/-- Content of TEST_TICKETS[4] from scripts/add_test_tickets.py, verbatim. -/
def testTicket4 : String :=
  "
Subject: URGENT - System down, losing revenue!

THIS IS CRITICAL!!!

Our entire payment processing system has been down for 3 HOURS. We are losing thousands of
dollars every minute this continues. Our customers can't complete purchases and we're getting
bombarded with complaints.

This is absolutely UNACCEPTABLE for an enterprise plan customer. We need someone on this
IMMEDIATELY or we're switching providers and demanding a full refund.

Contact me NOW: 555-0199

Account name: David Park
Account email: david.park@enterprise.com
Director of Operations
"

/-- Content of TEST_TICKETS[5] from scripts/add_test_tickets.py, verbatim. -/
def testTicket5 : String :=
  "
Subject: Thank you for the excellent support!

Hi team,

I just wanted to send a quick note to say thank you for the amazing support I received
yesterday from Alex. He was patient, knowledgeable, and went above and beyond to help me
set up my integration.

Your product is fantastic and your support team makes it even better. Keep it up!

Cheers,
Account name: Lisa Anderson
Account email: lisa.anderson@creative.co
"

/-- The contents of TEST_TICKETS, in list order. -/
def TEST_TICKETS : List String :=
  [testTicket0, testTicket1, testTicket2, testTicket3, testTicket4, testTicket5]

/-- The values of the database enumerated type category_enum. The schema DDL
file (init_schema.sql) is not under src/; the enumeration follows section 6 of
the spec and src/src/utils/enums.py. -/
def categoryEnumVals : List String := ["billing", "technical", "feature_request", "general"]

/-- The values of the database enumerated type priority_enum. The schema DDL
file (init_schema.sql) is not under src/; the enumeration follows section 6 of
the spec and src/src/utils/enums.py. -/
def priorityEnumVals : List String := ["low", "medium", "high", "critical"]

/-- One row of the customers table. -/
structure Customer where
  id : Nat
  email : String
  name : String
deriving DecidableEq, Repr

/-- One row of the tickets table. -/
structure TicketRow where
  id : Nat
  customer_id : Nat
  raw_content : String
  summary : String
  category : String
  priority : String
  sentiment_score : Rat
deriving DecidableEq, Repr

/-- The database state: both tables plus the serial id counters. Modelled from
the spec: the schema DDL (init_schema.sql) is not under src/, so the tables and
their constraints follow section 6 of the spec. -/
structure DB where
  customers : List Customer
  tickets : List TicketRow
  nextCustomerId : Nat
  nextTicketId : Nat
deriving DecidableEq, Repr

/-- A fresh database: empty tables, serial counters starting at one. -/
def DB.empty : DB :=
  { customers := [], tickets := [], nextCustomerId := 1, nextTicketId := 1 }

/-- The customer UPSERT statement of the writer: INSERT ... ON CONFLICT (email)
DO UPDATE SET name = EXCLUDED.name RETURNING id. On conflict with the unique
email index the conflicting row keeps its id and takes the new name; otherwise
a fresh row with the next serial id is appended. -/
def upsertCustomer (db : DB) (em nm : String) : DB × Nat :=
  match db.customers.find? (fun c => c.email == em) with
  | some c =>
    ({ db with
        customers :=
          db.customers.map (fun c2 => if c2.email == em then { c2 with name := nm } else c2) },
      c.id)
  | none =>
    ({ db with
        customers := db.customers ++ [{ id := db.nextCustomerId, email := em, name := nm }]
        nextCustomerId := db.nextCustomerId + 1 },
      db.nextCustomerId)

/-- The ticket INSERT statement with its enum casts and the foreign key on
customer_id: a value outside category_enum or priority_enum, or a missing
customer, is a constraint violation. The sentiment_score column is a plain
FLOAT, so its range is not checked at the storage layer. -/
def insertTicket (db : DB) (cid : Nat) (rc sm cat pr : String) (sc : Rat) :
    Except String (DB × Nat) :=
  if ¬ categoryEnumVals.contains cat then
    Except.error ("invalid input value for enum category_enum: " ++ cat)
  else if ¬ priorityEnumVals.contains pr then
    Except.error ("invalid input value for enum priority_enum: " ++ pr)
  else if ¬ db.customers.any (fun c => c.id == cid) then
    Except.error ("insert on table tickets violates foreign key constraint")
  else
    Except.ok
      ({ db with
          tickets := db.tickets ++
            [{ id := db.nextTicketId, customer_id := cid, raw_content := rc, summary := sm,
               category := cat, priority := pr, sentiment_score := sc }]
          nextTicketId := db.nextTicketId + 1 },
        db.nextTicketId)

/-- save_ticket from src/agent/tools.py; the identical transaction is inlined
in src/main.py and scripts/add_test_tickets.py. Inside one transaction the
customer is upserted by email and the ticket inserted; on failure the
transaction rolls back, so the state handed back is the caller's unchanged
state, and on success both statements commit together. -/
def save_ticket (db : DB)
    (customer_email customer_name raw_content summary category priority : String)
    (sentiment_score : Rat) : DB × Except String (Nat × Nat) :=
  let r := upsertCustomer db customer_email customer_name
  match insertTicket r.1 r.2 raw_content summary category priority sentiment_score with
  | Except.ok (db2, tid) => (db2, Except.ok (r.2, tid))
  | Except.error e => (db, Except.error e)

/-- The raw model response as parsed JSON fields, before schema validation. -/
structure RawOutput where
  summary : String
  category : String
  priority : String
  sentiment_score : Rat
deriving DecidableEq, Repr

/-- ProcessedTicket from src/models/schemas.py with use_enum_values set, so
category and priority are carried as their string values. -/
structure ProcessedTicket where
  summary : String
  category : String
  priority : String
  sentiment_score : Rat
deriving DecidableEq, Repr

/-- Pydantic validation of a model response against ProcessedTicket: category
and priority must coerce into their enumerations and sentiment_score must obey
ge 0 and le 1; any violation fails validation. -/
def validateProcessedTicket (r : RawOutput) : Option ProcessedTicket :=
  if categoryEnumVals.contains r.category && priorityEnumVals.contains r.priority
      && decide (0 ≤ r.sentiment_score) && decide (r.sentiment_score ≤ 1) then
    some { summary := r.summary, category := r.category, priority := r.priority,
           sentiment_score := r.sentiment_score }
  else none

/-- The events observable on a run of an entry point. -/
inductive Ev
  | poolOpened
  | poolClosed
deriving DecidableEq, Repr

/-- The outside world of the single-ticket entry point: the environment and the
outcomes of pool creation, the schema DDL, and the remote model call. -/
structure MainWorld where
  env : EnvMap
  poolOk : Except String Unit
  schemaOk : Except String Unit
  agentRaw : Except String RawOutput

/-- The classification step: the remote call, then pydantic validation of the
structured output; pydantic-ai raises when validation fails, so no value that
fails validation is ever returned to the caller. -/
def classify (agentRaw : Except String RawOutput) : Except String ProcessedTicket :=
  match agentRaw with
  | Except.error e => Except.error e
  | Except.ok r =>
    match validateProcessedTicket r with
    | some t => Except.ok t
    | none => Except.error ("model output failed schema validation")

/-- The try-block of main() in src/main.py: configuration, pool, schema, agent,
extraction of the sample ticket, classification, then the saving transaction.
Returns the events so far, the database, and the outcome. -/
def mainBody (w : MainWorld) (db : DB) : List Ev × DB × Except String Unit :=
  match Settings.from_env w.env with
  | Except.error e => ([], db, Except.error e)
  | Except.ok _st =>
    match w.poolOk with
    | Except.error e => ([], db, Except.error e)
    | Except.ok _ =>
      match w.schemaOk with
      | Except.error e => ([Ev.poolOpened], db, Except.error e)
      | Except.ok _ =>
        let info := extract_customer_info SAMPLE_TICKET
        match classify w.agentRaw with
        | Except.error e => ([Ev.poolOpened], db, Except.error e)
        | Except.ok out =>
          match save_ticket db info.email info.name SAMPLE_TICKET out.summary out.category
              out.priority out.sentiment_score with
          | (db2, Except.ok _) => ([Ev.poolOpened], db2, Except.ok ())
          | (db2, Except.error e) => ([Ev.poolOpened], db2, Except.error e)

/-- main() from src/main.py with its finally block: when the pool is not None
it is closed last, on every path. -/
def mainRun (w : MainWorld) (db : DB) : List Ev × DB × Except String Unit :=
  match mainBody w db with
  | (evs, db2, res) =>
    if Ev.poolOpened ∈ evs then (evs ++ [Ev.poolClosed], db2, res) else (evs, db2, res)

/-- The outside world of the batch script: the environment, the pool-creation
outcome, and one remote-model outcome per processed ticket. -/
structure BatchWorld where
  env : EnvMap
  poolOk : Except String Unit
  agentRaw : List (Except String RawOutput)

/-- process_ticket from scripts/add_test_tickets.py: extract, classify, then
the same saving transaction; on any failure the error propagates and the
database is untouched. -/
def process_ticket (agentRaw : Except String RawOutput) (db : DB) (content : String) :
    DB × Except String (Nat × Nat) :=
  let info := extract_customer_info content
  match classify agentRaw with
  | Except.error e => (db, Except.error e)
  | Except.ok out =>
    save_ticket db info.email info.name content out.summary out.category out.priority
      out.sentiment_score

/-- The for-loop of main() in scripts/add_test_tickets.py over the given
contents: sequential in list order, the first raised error stopping the loop
and propagating. -/
def runBatch : List (Except String RawOutput) → DB → List String →
    DB × Except String (List (Nat × Nat))
  | _, db, [] => (db, Except.ok [])
  | rs, db, c :: cs =>
    match process_ticket (rs.headD (Except.error "missing model response")) db c with
    | (db2, Except.ok ids) =>
      match runBatch rs.tail db2 cs with
      | (db3, Except.ok rest) => (db3, Except.ok (ids :: rest))
      | (db3, Except.error e) => (db3, Except.error e)
    | (db2, Except.error e) => (db2, Except.error e)

/-- The try-block of main() in scripts/add_test_tickets.py: configuration, pool,
agent, then the loop over TEST_TICKETS. -/
def batchBody (w : BatchWorld) (db : DB) : List Ev × DB × Except String (List (Nat × Nat)) :=
  match Settings.from_env w.env with
  | Except.error e => ([], db, Except.error e)
  | Except.ok _st =>
    match w.poolOk with
    | Except.error e => ([], db, Except.error e)
    | Except.ok _ =>
      match runBatch w.agentRaw db TEST_TICKETS with
      | (db2, res) => ([Ev.poolOpened], db2, res)

/-- main() from scripts/add_test_tickets.py with its finally block: when the
pool is not None it is closed last, on every path. -/
def batchRun (w : BatchWorld) (db : DB) : List Ev × DB × Except String (List (Nat × Nat)) :=
  match batchBody w db with
  | (evs, db2, res) =>
    if Ev.poolOpened ∈ evs then (evs ++ [Ev.poolClosed], db2, res) else (evs, db2, res)

/-- The text strictly after the first colon of a line; the wording of the claim
about the extracted name. -/
def afterFirstColon (cs : List Char) : List Char :=
  (cs.dropWhile (fun c => c != ':')).drop 1

/-- The text between the first colon of a line and the next colon or the end of
the line: the second colon-separated field, as the amended claim words it. -/
def betweenColons (cs : List Char) : List Char :=
  (afterFirstColon cs).takeWhile (fun c => c != ':')

/-- The customer rows stored under one email. -/
def customersFor (db : DB) (em : String) : List Customer :=
  db.customers.filter (fun c => c.email == em)

/-- The storage invariant the schema enforces on the customers table: the
unique index on email, and serial ids below the next serial value. -/
def DBInv (db : DB) : Prop :=
  (db.customers.map Customer.email).Nodup ∧ ∀ c ∈ db.customers, c.id < db.nextCustomerId

/-- The Settings value of the C7 counterexample: a space inside the user and
the password. -/
def settingsSpace : Settings :=
  { gemini_api_key := "k", db_host := "h", db_port := 5432, db_name := "d",
    db_user := "user name", db_password := "p w" }

/-- The environment of the C6 counterexample: every required variable present,
DB_HOST present but set to the empty string. -/
def envEmptyHost : EnvMap := fun v =>
  if v = "DB_HOST" then some "" else
  if required_vars.contains v then some "value1" else none

/-- A complete, well-formed environment used by witnesses. -/
def envGood : EnvMap := fun v =>
  if v = "GEMINI_API_KEY" then some "key9" else
  if v = "DB_HOST" then some "localhost" else
  if v = "DB_PORT" then some "5432" else
  if v = "DB_NAME" then some "tickets" else
  if v = "DB_USER" then some "user9" else
  if v = "DB_PASSWORD" then some "pw9" else none

/-- A concrete valid model response used by witnesses (one per batch ticket). -/
def rawGood (k : Nat) : RawOutput :=
  { summary := "summary " ++ toString k, category := "billing", priority := "low",
    sentiment_score := 1 }

/-- The ProcessedTicket that rawGood validates into. -/
def procGood (k : Nat) : ProcessedTicket :=
  { summary := "summary " ++ toString k, category := "billing", priority := "low",
    sentiment_score := 1 }

theorem startsList_iff (p : List Char) : ∀ cs, startsList p cs = true ↔ p <+: cs := by
  induction p with
  | nil => intro cs; simp [startsList]
  | cons a ps ih =>
    intro cs
    cases cs with
    | nil => simp [startsList]
    | cons c cs2 => simp [startsList, ih, List.cons_prefix_cons]

theorem hasSubstr_iff (p : List Char) : ∀ cs, hasSubstr p cs = true ↔ p <:+: cs := by
  intro cs
  induction cs with
  | nil => simp [hasSubstr, startsList_iff]
  | cons c cs2 ih => simp [hasSubstr, startsList_iff, ih, List.infix_cons_iff]

theorem toLower_eq_colon (c : Char) (h : Char.toLower c = ':') : c = ':' := by
  simp only [Char.toLower] at h
  split at h
  · rename_i hrange
    obtain ⟨h1, h2⟩ := hrange
    exfalso
    generalize hgen : Char.toNat c = n at h1 h2 h
    interval_cases n <;> exact absurd h (by decide)
  · exact h

theorem colon_mem_of_token (line : List Char)
    (h : hasSubstr nameToken (pyLower line) = true) : ':' ∈ line := by
  have h2 : ':' ∈ pyLower line := by
    have h3 : nameToken <:+: pyLower line := (hasSubstr_iff _ _).1 h
    exact h3.subset (by decide)
  obtain ⟨c, hc, heq⟩ := List.mem_map.1 h2
  rw [toLower_eq_colon c heq] at hc
  exact hc

theorem pySplit_head (sep : Char) (cs : List Char) :
    ∃ ps, pySplit sep cs = cs.takeWhile (fun c => c != sep) :: ps := by
  induction cs with
  | nil => exact ⟨[], rfl⟩
  | cons c rest ih =>
    by_cases h : c = sep
    · refine ⟨pySplit sep rest, ?_⟩
      simp [pySplit, h]
    · obtain ⟨ps, hps⟩ := ih
      exact ⟨ps, by simp [pySplit, h, hps]⟩

theorem pySplit_ne_nil (sep : Char) (cs : List Char) : pySplit sep cs ≠ [] := by
  obtain ⟨ps, h⟩ := pySplit_head sep cs
  simp [h]

theorem pySplit_getD_one (cs : List Char) :
    (pySplit ':' cs).getD 1 [] = betweenColons cs := by
  induction cs with
  | nil => rfl
  | cons c rest ih =>
    by_cases h : c = ':'
    · subst h
      obtain ⟨ps, hps⟩ := pySplit_head ':' rest
      simp [pySplit, hps, betweenColons, afterFirstColon]
    · cases hsplit : pySplit ':' rest with
      | nil => exact absurd hsplit (pySplit_ne_nil ':' rest)
      | cons p ps =>
        rw [hsplit] at ih
        simp only [pySplit, if_neg h, hsplit]
        simpa [betweenColons, afterFirstColon, h] using ih

theorem pySplit_two_of_mem (cs : List Char) (h : ':' ∈ cs) :
    ∃ p p1 ps, pySplit ':' cs = p :: p1 :: ps := by
  induction cs with
  | nil => cases h
  | cons c rest ih =>
    by_cases hc : c = ':'
    · subst hc
      obtain ⟨ps0, h0⟩ := pySplit_head ':' rest
      refine ⟨[], List.takeWhile (fun c => c != ':') rest, ps0, ?_⟩
      simp [pySplit, h0]
    · have hr : ':' ∈ rest := by
        cases List.mem_cons.1 h with
        | inl hh => exact absurd hh.symm hc
        | inr hh => exact hh
      obtain ⟨p, p1, ps, hps⟩ := ih hr
      exact ⟨c :: p, p1, ps, by simp [pySplit, hc, hps]⟩

theorem findNameIn_eq (lines : List (List Char)) :
    findNameIn lines =
      (lines.find? (fun l => hasSubstr nameToken (pyLower l))).map
        (fun l => pyStripL (betweenColons l)) := by
  induction lines with
  | nil => rfl
  | cons line rest ih =>
    by_cases h : hasSubstr nameToken (pyLower line) = true
    · obtain ⟨p, p1, ps, hsplit⟩ := pySplit_two_of_mem line (colon_mem_of_token line h)
      have h1 : (pySplit ':' line).getD 1 [] = p1 := by simp [hsplit]
      rw [pySplit_getD_one] at h1
      simp [findNameIn, hsplit, h, List.find?_cons_of_pos, ← h1]
    · simp only [findNameIn] at *
      rw [if_neg h, List.find?_cons_of_neg _ (by simpa using h), ih]

theorem extract_name_eq (t : String) :
    (extract_customer_info t).name =
      (match (pySplit '\n' t.toList).find? (fun l => hasSubstr nameToken (pyLower l)) with
        | some l =>
          if pyStripL (betweenColons l) = [] then "Unknown Customer"
          else String.mk (pyStripL (betweenColons l))
        | none => "Unknown Customer") := by
  show (match findNameIn (pySplit '\n' t.toList) with
        | some n => if n = [] then "Unknown Customer" else String.mk n
        | none => "Unknown Customer") = _
  rw [findNameIn_eq]
  cases hf : (pySplit '\n' t.toList).find? (fun l => hasSubstr nameToken (pyLower l)) with
  | none => rfl
  | some l => rfl

/-- C4: for every ticket text in which the email pattern of the source has a
match, extract_customer_info returns the leftmost match exactly as it appears
in the text; for every text with no match it returns the sentinel default
unknown@example.com. -/
theorem extract_email_first_match (t : String) :
    (∀ m, firstEmail t.toList = some m → (extract_customer_info t).email = String.mk m) ∧
    (firstEmail t.toList = none → (extract_customer_info t).email = "unknown@example.com") := by
  constructor
  · intro m h
    show ((firstEmail t.toList).map String.mk).getD ("unknown@example.com") = String.mk m
    rw [h]
    rfl
  · intro h
    show ((firstEmail t.toList).map String.mk).getD ("unknown@example.com") = "unknown@example.com"
    rw [h]
    rfl

/-- Witness for the C4 theorem at concrete inputs: a text whose first pattern
match is a@b.co, and a text with no match at all. -/
theorem extract_email_first_match_witness :
    (extract_customer_info "mail a@b.co now").email = "a@b.co" ∧
    (extract_customer_info "no address here").email = "unknown@example.com" := by
  constructor
  · exact (extract_email_first_match "mail a@b.co now").1 ("a@b.co".toList) (by decide)
  · exact (extract_email_first_match "no address here").2 (by decide)

/-- C5 counterexample: on the input "name: a:b" the text after the first
colon, trimmed, is "a:b", but the extractor returns "a" (only the text between
the first and second colon), so the claim fails as stated. -/
theorem extract_name_after_colon_cex :
    (extract_customer_info "name: a:b").name = "a" ∧
    String.mk (pyStripL (afterFirstColon ("name: a:b".toList))) = "a:b" ∧
    ¬ ((extract_customer_info "name: a:b").name
        = String.mk (pyStripL (afterFirstColon ("name: a:b".toList)))) := by
  decide

/-- C5 amended: for every ticket text, the extractor builds the name from the
first line containing the token "name:" case-insensitively as the text between
that line's first colon and the following colon or end of line (not all text
after the first colon), trimmed of whitespace, the default "Unknown Customer"
replacing an all-whitespace field; with no such line it returns the default. -/
theorem extract_name_second_field (t : String) :
    (∀ l, (pySplit '\n' t.toList).find? (fun l2 => hasSubstr nameToken (pyLower l2)) = some l →
      (extract_customer_info t).name =
        (if pyStripL (betweenColons l) = [] then "Unknown Customer"
         else String.mk (pyStripL (betweenColons l)))) ∧
    ((pySplit '\n' t.toList).find? (fun l2 => hasSubstr nameToken (pyLower l2)) = none →
      (extract_customer_info t).name = "Unknown Customer") := by
  constructor
  · intro l h
    rw [extract_name_eq, h]
  · intro h
    rw [extract_name_eq, h]

/-- Witness for the amended C5 theorem: a concrete two-colon line where the
extractor keeps only the field between the colons. -/
theorem extract_name_second_field_witness :
    (extract_customer_info "Account Name: Alice: extra").name = "Alice" := by
  have h := (extract_name_second_field "Account Name: Alice: extra").1
      ("Account Name: Alice: extra".toList) (by decide)
  exact h.trans (by decide)

/-- C10: the extractor's name field is never the empty string: an
all-whitespace name field on the first "name:" line yields the default
"Unknown Customer", as does the absence of any such line. -/
theorem extract_name_never_empty (t : String) :
    (extract_customer_info t).name ≠ "" ∧
    (∀ l, (pySplit '\n' t.toList).find? (fun l2 => hasSubstr nameToken (pyLower l2)) = some l →
      pyStripL (betweenColons l) = [] →
      (extract_customer_info t).name = "Unknown Customer") := by
  constructor
  · rw [extract_name_eq]
    cases hf : (pySplit '\n' t.toList).find? (fun l2 => hasSubstr nameToken (pyLower l2)) with
    | none => decide
    | some l =>
      show (if pyStripL (betweenColons l) = [] then ("Unknown Customer" : String)
            else String.mk (pyStripL (betweenColons l))) ≠ ""
      by_cases he : pyStripL (betweenColons l) = []
      · rw [if_pos he]
        decide
      · rw [if_neg he]
        intro hcontra
        apply he
        have h2 := congrArg String.data hcontra
        simpa using h2
  · intro l h he
    rw [extract_name_eq, h]
    show (if pyStripL (betweenColons l) = [] then ("Unknown Customer" : String)
          else String.mk (pyStripL (betweenColons l))) = "Unknown Customer"
    rw [if_pos he]

/-- Witness for C10 at a concrete input whose name field is all whitespace. -/
theorem extract_name_never_empty_witness :
    (extract_customer_info "Name:   ").name = "Unknown Customer" ∧
    (extract_customer_info "Name:   ").name ≠ "" := by
  refine ⟨?_, (extract_name_never_empty "Name:   ").1⟩
  exact (extract_name_never_empty "Name:   ").2 ("Name:   ".toList) (by decide) (by decide)

theorem hexDigitU_ne_space (n : Nat) : hexDigitU n ≠ ' ' := by
  show (if n % 16 < 10 then Char.ofNat (48 + n % 16) else Char.ofNat (55 + n % 16)) ≠ ' '
  have hb : n % 16 < 16 := Nat.mod_lt _ (by omega)
  generalize hm : n % 16 = m at *
  interval_cases m <;> decide

theorem map_plus_percent (b : Nat) :
    (percentByte b).map (fun x => if x = ' ' then '+' else x) = percentByte b := by
  have h1 := hexDigitU_ne_space (b / 16)
  have h2 := hexDigitU_ne_space b
  simp [percentByte, h1, h2]

theorem map_plus_bytes (bs : List Nat) :
    (bs.foldr (fun b acc => percentByte b ++ acc) []).map (fun x => if x = ' ' then '+' else x)
      = bs.foldr (fun b acc => percentByte b ++ acc) [] := by
  induction bs with
  | nil => rfl
  | cons b rest ih => simp [List.map_append, map_plus_percent, ih]

theorem map_plus_quoteChar (c : Char) :
    (quoteChar [' '] c).map (fun x => if x = ' ' then '+' else x) = formEncodeChar c := by
  unfold quoteChar formEncodeChar
  by_cases hs : alwaysSafe c
  · have hcne : c ≠ ' ' := by
      intro h
      rw [h] at hs
      exact absurd hs (by decide)
    simp [hs, hcne]
  · by_cases hsp : c = ' '
    · rw [hsp]
      simp [alwaysSafe]
    · simp only [hs, hsp, Bool.false_or, if_neg]
      have hc : ([' '].contains c) = false := by
        simp [List.contains]
        exact fun hh => hsp hh
      simp [hs, hc, hsp, map_plus_bytes]

theorem quoteChar_nil_eq_form (c : Char) (h : c ≠ ' ') : quoteChar [] c = formEncodeChar c := by
  unfold quoteChar formEncodeChar
  simp [h]

theorem foldr_quote_eq_form (l : List Char) (h : ∀ c ∈ l, c ≠ ' ') :
    l.foldr (fun c acc => quoteChar [] c ++ acc) []
      = l.foldr (fun c acc => formEncodeChar c ++ acc) [] := by
  induction l with
  | nil => rfl
  | cons c rest ih =>
    simp only [List.foldr]
    rw [quoteChar_nil_eq_form c (h c (List.mem_cons_self _ _)),
      ih (fun x hx => h x (List.mem_cons_of_mem _ hx))]

theorem quote_plus_eq_formEncode (s : String) : quote_plus s = formEncode s := by
  unfold quote_plus
  by_cases h : s.toList.contains ' '
  · rw [if_pos h]
    show String.mk ((s.toList.foldr (fun c acc => quoteChar [' '] c ++ acc) []).map
        (fun x => if x = ' ' then '+' else x)) = formEncode s
    unfold formEncode
    congr 1
    induction s.toList with
    | nil => rfl
    | cons c rest ih => simp [List.map_append, map_plus_quoteChar, ih]
  · rw [if_neg h]
    unfold quote formEncode
    congr 1
    apply foldr_quote_eq_form
    intro c hc hceq
    rw [hceq] at hc
    exact h (by simpa [List.contains] using hc)

/-- C7 counterexample: with a space in user or password the source produces a
plus (the form-encoding of quote_plus) where plain percent-encoding produces
a %20 escape, so the DSN does not equal the percent-encoded form the claim
states. -/
theorem database_dsn_percent_cex :
    Settings.database_dsn settingsSpace = "postgresql://user+name:p+w@h:5432/d" ∧
    specDsn settingsSpace = "postgresql://user%20name:p%20w@h:5432/d" ∧
    ¬ (Settings.database_dsn settingsSpace = specDsn settingsSpace) := by
  decide

/-- C7 amended: for every Settings value the DSN equals the URL scheme with
user and password encoded by the form-style variant of percent-encoding
(quote_plus), in which a space becomes a plus sign and every other byte
outside the unreserved set becomes an uppercase percent-escape. -/
theorem database_dsn_form_encoded (st : Settings) :
    Settings.database_dsn st =
      "postgresql://" ++ formEncode st.db_user ++ ":" ++ formEncode st.db_password ++ "@"
        ++ st.db_host ++ ":" ++ toString st.db_port ++ "/" ++ st.db_name := by
  unfold Settings.database_dsn
  rw [quote_plus_eq_formEncode, quote_plus_eq_formEncode]

/-- C6 counterexample: an environment in which every required variable is
present — DB_HOST bound to the empty string — still makes Settings.from_env
raise the missing-variables error instead of returning a Settings record,
because the source applies a falsy check to each value. -/
theorem from_env_present_empty_cex :
    (required_vars.all (fun v => (envEmptyHost v).isSome)) = true ∧
    Settings.from_env envEmptyHost =
      Except.error "Missing required environment variables: DB_HOST" := by
  decide

/-- C6 amended: a required variable that is unset or set to the empty string
makes Settings.from_env fail with an error naming exactly those variables, and
a run of the orchestrator whose configuration fails produces no event at all
(in particular no pool is opened) and leaves the database untouched; when every
required variable passes the falsy check and DB_PORT parses as a decimal
integer, from_env returns the Settings record populated from the environment. -/
theorem from_env_spec (env : EnvMap) :
    (missingVars env ≠ [] →
      Settings.from_env env =
        Except.error ("Missing required environment variables: "
          ++ String.intercalate ", " (missingVars env))) ∧
    (∀ w db e, Settings.from_env w.env = Except.error e →
      (mainRun w db).1 = [] ∧ (mainRun w db).2.1 = db) ∧
    (missingVars env = [] →
      ∀ p, parsePyInt (getenvD env "DB_PORT" "5432") = some p →
      Settings.from_env env = Except.ok
        { gemini_api_key := getenvD env "GEMINI_API_KEY" ""
          db_host := getenvD env "DB_HOST" ""
          db_port := p
          db_name := getenvD env "DB_NAME" ""
          db_user := getenvD env "DB_USER" ""
          db_password := getenvD env "DB_PASSWORD" "" }) := by
  refine ⟨?_, ?_, ?_⟩
  · intro h
    unfold Settings.from_env
    rw [if_pos h]
  · intro w db e h
    unfold mainRun mainBody
    rw [h]
    exact ⟨rfl, rfl⟩
  · intro h p hp
    unfold Settings.from_env
    rw [if_neg (by simp [h]), hp]

/-- Witness for the amended C6 theorem: a complete environment loads into the
expected Settings record; an empty environment fails and the orchestrator
records no event, so no pool was opened. -/
theorem from_env_spec_witness :
    Settings.from_env envGood = Except.ok
      { gemini_api_key := "key9", db_host := "localhost", db_port := 5432,
        db_name := "tickets", db_user := "user9", db_password := "pw9" } ∧
    (mainRun { env := fun _ => none, poolOk := Except.ok (), schemaOk := Except.ok (),
               agentRaw := Except.error "unused" } DB.empty).1 = [] := by
  constructor
  · have h := (from_env_spec envGood).2.2 (by decide) 5432 (by decide)
    exact h.trans (by decide)
  · exact ((from_env_spec envGood).2.1
      { env := fun _ => none, poolOk := Except.ok (), schemaOk := Except.ok (),
        agentRaw := Except.error "unused" } DB.empty
      ("Missing required environment variables: GEMINI_API_KEY, DB_HOST, DB_PORT, DB_NAME, DB_USER, DB_PASSWORD")
      (by decide)).1

/-- C3: a model response that validates into a ProcessedTicket has category
and priority inside their fixed enumerations and sentiment_score in the closed
interval from zero to one; a response violating any of these fails validation;
and a response that fails validation reaches no persistence: the single-ticket
entry point then leaves the database unchanged. -/
theorem validated_output_wellformed :
    (∀ r t, validateProcessedTicket r = some t →
      t.category ∈ categoryEnumVals ∧ t.priority ∈ priorityEnumVals ∧
      0 ≤ t.sentiment_score ∧ t.sentiment_score ≤ 1) ∧
    (∀ r, ¬ (r.category ∈ categoryEnumVals ∧ r.priority ∈ priorityEnumVals ∧
        0 ≤ r.sentiment_score ∧ r.sentiment_score ≤ 1) →
      validateProcessedTicket r = none) ∧
    (∀ w db r, w.agentRaw = Except.ok r → validateProcessedTicket r = none →
      (mainRun w db).2.1 = db) := by
  refine ⟨?_, ?_, ?_⟩
  · intro r t h
    unfold validateProcessedTicket at h
    split at h
    · rename_i hcond
      simp only [Bool.and_eq_true, List.contains_eq_any_beq, List.any_eq_true,
        beq_iff_eq, decide_eq_true_eq] at hcond
      obtain ⟨⟨⟨hc, hp⟩, hge⟩, hle⟩ := hcond
      injection h with h2
      rw [← h2]
      refine ⟨?_, ?_, hge, hle⟩
      · obtain ⟨x, hx, hxeq⟩ := hc
        rw [hxeq]; exact hx
      · obtain ⟨x, hx, hxeq⟩ := hp
        rw [hxeq]; exact hx
    · cases h
  · intro r hnot
    unfold validateProcessedTicket
    rw [if_neg]
    intro hcond
    apply hnot
    simp only [Bool.and_eq_true, List.contains_eq_any_beq, List.any_eq_true,
      beq_iff_eq, decide_eq_true_eq] at hcond
    obtain ⟨⟨⟨hc, hp⟩, hge⟩, hle⟩ := hcond
    obtain ⟨x, hx, hxeq⟩ := hc
    obtain ⟨y, hy, hyeq⟩ := hp
    exact ⟨by rw [hxeq]; exact hx, by rw [hyeq]; exact hy, hge, hle⟩
  · intro w db r hr hv
    have hc : classify w.agentRaw = Except.error "model output failed schema validation" := by
      rw [hr]
      show (match validateProcessedTicket r with
            | some t => Except.ok t
            | none => Except.error "model output failed schema validation") = _
      rw [hv]
    unfold mainRun mainBody
    rw [hc]
    cases h1 : Settings.from_env w.env with
    | error e => rfl
    | ok st =>
      cases h2 : w.poolOk with
      | error e => rfl
      | ok u =>
        cases h3 : w.schemaOk with
        | error e => rfl
        | ok u2 => rfl

/-- Witness for C3: a concrete valid response gives enum members and a score
inside the interval; a concrete bad category fails validation; and with that
bad response the orchestrator run commits nothing to an empty database. -/
theorem validated_output_wellformed_witness :
    ((procGood 0).category ∈ categoryEnumVals ∧ (procGood 0).priority ∈ priorityEnumVals ∧
      0 ≤ (procGood 0).sentiment_score ∧ (procGood 0).sentiment_score ≤ 1) ∧
    validateProcessedTicket
      { summary := "s", category := "refund", priority := "low", sentiment_score := 0 } = none ∧
    (mainRun
      { env := envGood, poolOk := Except.ok (), schemaOk := Except.ok (),
        agentRaw := Except.ok
          { summary := "s", category := "refund", priority := "low", sentiment_score := 0 } }
      DB.empty).2.1 = DB.empty := by
  refine ⟨?_, ?_, ?_⟩
  · exact validated_output_wellformed.1 (rawGood 0) (procGood 0) (by decide)
  · exact validated_output_wellformed.2.1
      { summary := "s", category := "refund", priority := "low", sentiment_score := 0 }
      (by decide)
  · exact validated_output_wellformed.2.2
      { env := envGood, poolOk := Except.ok (), schemaOk := Except.ok (),
        agentRaw := Except.ok
          { summary := "s", category := "refund", priority := "low", sentiment_score := 0 } }
      DB.empty
      { summary := "s", category := "refund", priority := "low", sentiment_score := 0 }
      rfl (by decide)

theorem save_ticket_def (db : DB) (em nm rc sm cat pr : String) (sc : Rat) :
    save_ticket db em nm rc sm cat pr sc =
      (match insertTicket (upsertCustomer db em nm).1 (upsertCustomer db em nm).2
          rc sm cat pr sc with
       | Except.ok (db2, tid) => (db2, Except.ok ((upsertCustomer db em nm).2, tid))
       | Except.error e => (db, Except.error e)) := rfl

theorem insertTicket_ok_fields (db : DB) (cid : Nat) (rc sm cat pr : String) (sc : Rat)
    (db2 : DB) (tid : Nat)
    (h : insertTicket db cid rc sm cat pr sc = Except.ok (db2, tid)) :
    db2.customers = db.customers ∧ db2.nextCustomerId = db.nextCustomerId ∧
    tid = db.nextTicketId ∧
    db2.tickets = db.tickets ++
      [{ id := db.nextTicketId, customer_id := cid, raw_content := rc, summary := sm,
         category := cat, priority := pr, sentiment_score := sc }] := by
  unfold insertTicket at h
  split at h
  · cases h
  · split at h
    · cases h
    · split at h
      · cases h
      · simp only [Except.ok.injEq, Prod.mk.injEq] at h
        obtain ⟨h1, h2⟩ := h
        rw [← h1, ← h2]
        exact ⟨rfl, rfl, rfl, rfl⟩

theorem save_ticket_error_eq (db : DB) (em nm rc sm cat pr : String) (sc : Rat) (e : String)
    (h : (save_ticket db em nm rc sm cat pr sc).2 = Except.error e) :
    (save_ticket db em nm rc sm cat pr sc).1 = db := by
  rw [save_ticket_def] at h ⊢
  cases hi : insertTicket (upsertCustomer db em nm).1 (upsertCustomer db em nm).2
      rc sm cat pr sc with
  | ok v =>
    obtain ⟨db2, tid2⟩ := v
    rw [hi] at h
    simp at h
  | error e2 =>
    rfl

theorem upsertCustomer_mem (db : DB) (em nm : String) :
    ∃ c ∈ (upsertCustomer db em nm).1.customers,
      c.id = (upsertCustomer db em nm).2 ∧ c.email = em ∧ c.name = nm := by
  unfold upsertCustomer
  cases hf : db.customers.find? (fun c => c.email == em) with
  | none =>
    refine ⟨{ id := db.nextCustomerId, email := em, name := nm }, ?_, rfl, rfl, rfl⟩
    simp
  | some c =>
    have hmem := List.mem_of_find?_eq_some hf
    have hbeq := List.find?_some hf
    have hemail : c.email = em := by simpa using hbeq
    refine ⟨{ c with name := nm }, ?_, rfl, hemail, rfl⟩
    refine List.mem_map.2 ⟨c, hmem, ?_⟩
    simp [hbeq]

/-- C1: the saving transaction is atomic. When any statement fails — in
particular when the ticket insert fails after the customer upsert within the
same call — the transaction rolls back and the returned database is exactly
the caller's, customers table included, whether or not the email was
previously seen; when the call succeeds, the upserted customer row and the new
ticket row referencing it are both committed. -/
theorem save_ticket_atomic (db : DB) (em nm rc sm cat pr : String) (sc : Rat) :
    (∀ e, (save_ticket db em nm rc sm cat pr sc).2 = Except.error e →
      (save_ticket db em nm rc sm cat pr sc).1 = db) ∧
    (∀ cid tid, (save_ticket db em nm rc sm cat pr sc).2 = Except.ok (cid, tid) →
      (∃ c ∈ (save_ticket db em nm rc sm cat pr sc).1.customers,
        c.id = cid ∧ c.email = em ∧ c.name = nm) ∧
      (∃ trow ∈ (save_ticket db em nm rc sm cat pr sc).1.tickets,
        trow.id = tid ∧ trow.customer_id = cid ∧ trow.raw_content = rc ∧
        trow.category = cat ∧ trow.priority = pr)) := by
  constructor
  · intro e h
    exact save_ticket_error_eq db em nm rc sm cat pr sc e h
  · intro cid tid h
    rw [save_ticket_def] at h ⊢
    cases hi : insertTicket (upsertCustomer db em nm).1 (upsertCustomer db em nm).2
        rc sm cat pr sc with
    | error e2 =>
      rw [hi] at h
      simp at h
    | ok v =>
      obtain ⟨db2, tid2⟩ := v
      rw [hi] at h
      simp only [Except.ok.injEq, Prod.mk.injEq] at h
      obtain ⟨hcid, htid⟩ := h
      obtain ⟨hcust, hnextc, htidval, htickets⟩ :=
        insertTicket_ok_fields _ _ _ _ _ _ _ _ _ hi
      constructor
      · obtain ⟨c, hcm, hcidc, hcem, hcnm⟩ := upsertCustomer_mem db em nm
        refine ⟨c, ?_, ?_, hcem, hcnm⟩
        · show c ∈ db2.customers
          rw [hcust]
          exact hcm
        · rw [hcidc, hcid]
      · refine
          ⟨{ id := (upsertCustomer db em nm).1.nextTicketId,
             customer_id := (upsertCustomer db em nm).2, raw_content := rc, summary := sm,
             category := cat, priority := pr, sentiment_score := sc },
           ?_, ?_, hcid, rfl, rfl, rfl⟩
        · show _ ∈ db2.tickets
          rw [htickets]
          exact List.mem_append_right _ (List.mem_singleton.2 rfl)
        · rw [← htid, htidval]

/-- Witness for C1: at a concrete fresh database, an insert with a category
outside the enumeration hands back the database unchanged, and a valid call
commits the customer row. -/
theorem save_ticket_atomic_witness :
    (save_ticket DB.empty "a@b.co" "Ann" "raw" "sum" "refund" "low" 1).1 = DB.empty ∧
    (∃ c ∈ (save_ticket DB.empty "a@b.co" "Ann" "raw" "sum" "billing" "low" 1).1.customers,
      c.id = 1 ∧ c.email = "a@b.co" ∧ c.name = "Ann") := by
  constructor
  · exact (save_ticket_atomic DB.empty "a@b.co" "Ann" "raw" "sum" "refund" "low" 1).1
      "invalid input value for enum category_enum: refund" (by decide)
  · exact ((save_ticket_atomic DB.empty "a@b.co" "Ann" "raw" "sum" "billing" "low" 1).2
      1 1 (by decide)).1

theorem find?_email_eq (l : List Customer) (em : String) (c : Customer)
    (hnodup : (l.map Customer.email).Nodup) (hc : c ∈ l) (he : c.email = em) :
    l.find? (fun x => x.email == em) = some c := by
  induction l with
  | nil => cases hc
  | cons d rest ih =>
    simp only [List.map_cons, List.nodup_cons] at hnodup
    obtain ⟨hd, hrest⟩ := hnodup
    by_cases hdem : (d.email == em) = true
    · have hdem2 : d.email = em := by simpa using hdem
      cases List.mem_cons.1 hc with
      | inl hceq =>
        rw [hceq]
        simp [hdem]
      | inr hcr =>
        exfalso
        apply hd
        rw [hdem2, ← he]
        exact List.mem_map_of_mem _ hcr
    · have hdem2 : d.email ≠ em := by simpa using hdem
      have hcr : c ∈ rest := by
        cases List.mem_cons.1 hc with
        | inl hceq => exact absurd (show d.email = em by rw [← hceq]; exact he) hdem2
        | inr hh => exact hh
      rw [show List.find? (fun x => x.email == em) (d :: rest) =
        List.find? (fun x => x.email == em) rest from by simp [hdem]]
      exact ih hrest hcr

theorem filter_email_single (l : List Customer) (em : String) (c : Customer)
    (hnodup : (l.map Customer.email).Nodup) (hc : c ∈ l) (he : c.email = em) :
    l.filter (fun x => x.email == em) = [c] := by
  induction l with
  | nil => cases hc
  | cons d rest ih =>
    simp only [List.map_cons, List.nodup_cons] at hnodup
    obtain ⟨hd, hrest⟩ := hnodup
    by_cases hdem : (d.email == em) = true
    · have hdem2 : d.email = em := by simpa using hdem
      have hcd : c = d := by
        cases List.mem_cons.1 hc with
        | inl hh => exact hh
        | inr hh =>
          exact absurd (show d.email ∈ rest.map Customer.email by
            rw [hdem2, ← he]; exact List.mem_map_of_mem _ hh) hd
      have hrestnil : rest.filter (fun x => x.email == em) = [] := by
        rw [List.filter_eq_nil_iff]
        intro x hx hbeq
        apply hd
        have hxem : x.email = em := by simpa using hbeq
        rw [hdem2, ← hxem]
        exact List.mem_map_of_mem _ hx
      rw [hcd]
      simp [hdem, hrestnil]
    · have hdem2 : d.email ≠ em := by simpa using hdem
      have hcr : c ∈ rest := by
        cases List.mem_cons.1 hc with
        | inl hceq => exact absurd (show d.email = em by rw [← hceq]; exact he) hdem2
        | inr hh => exact hh
      rw [show List.filter (fun x => x.email == em) (d :: rest) =
        List.filter (fun x => x.email == em) rest from by simp [hdem]]
      exact ih hrest hcr

theorem upsert_absent (db : DB) (em nm : String)
    (h : db.customers.find? (fun c => c.email == em) = none) :
    upsertCustomer db em nm =
      ({ db with
          customers := db.customers ++ [{ id := db.nextCustomerId, email := em, name := nm }],
          nextCustomerId := db.nextCustomerId + 1 }, db.nextCustomerId) := by
  unfold upsertCustomer
  rw [h]

theorem upsert_present (db : DB) (em nm : String) (c : Customer)
    (hnodup : (db.customers.map Customer.email).Nodup) (hc : c ∈ db.customers)
    (he : c.email = em) :
    (upsertCustomer db em nm).2 = c.id ∧
    customersFor (upsertCustomer db em nm).1 em = [{ c with name := nm }] ∧
    (upsertCustomer db em nm).1.nextCustomerId = db.nextCustomerId ∧
    (∀ c2 ∈ db.customers, c2.email ≠ em → c2 ∈ (upsertCustomer db em nm).1.customers) := by
  have hf : db.customers.find? (fun x => x.email == em) = some c :=
    find?_email_eq _ _ _ hnodup hc he
  unfold upsertCustomer
  rw [hf]
  refine ⟨rfl, ?_, rfl, ?_⟩
  · show (db.customers.map
        (fun c2 => if c2.email == em then { c2 with name := nm } else c2)).filter
      (fun x => x.email == em) = [{ c with name := nm }]
    rw [List.filter_map]
    have hpf : ((fun x : Customer => x.email == em) ∘
        (fun c2 => if c2.email == em then { c2 with name := nm } else c2)) =
        (fun x : Customer => x.email == em) := by
      funext x
      by_cases hx : (x.email == em) = true <;> simp [Function.comp, hx]
    rw [hpf, filter_email_single db.customers em c hnodup hc he]
    simp [he]
  · intro c2 hc2 hne
    refine List.mem_map.2 ⟨c2, hc2, ?_⟩
    simp [hne]

theorem upsert_inv (db : DB) (em nm : String) (h : DBInv db) :
    DBInv (upsertCustomer db em nm).1 := by
  obtain ⟨hnodup, hids⟩ := h
  unfold upsertCustomer
  cases hf : db.customers.find? (fun c => c.email == em) with
  | some c =>
    constructor
    · show ((db.customers.map
          (fun c2 => if c2.email == em then { c2 with name := nm } else c2)).map
        Customer.email).Nodup
      rw [List.map_map]
      have hco : (Customer.email ∘
          (fun c2 => if c2.email == em then { c2 with name := nm } else c2)) =
          Customer.email := by
        funext x
        by_cases hx : (x.email == em) = true <;> simp [Function.comp, hx]
      rw [hco]
      exact hnodup
    · intro c2 hc2
      obtain ⟨x, hx, hxeq⟩ := List.mem_map.1 hc2
      have hid : c2.id = x.id := by
        rw [← hxeq]
        by_cases hx2 : (x.email == em) = true <;> simp [hx2]
      show c2.id < db.nextCustomerId
      rw [hid]
      exact hids x hx
  | none =>
    constructor
    · show ((db.customers ++
          [({ id := db.nextCustomerId, email := em, name := nm } : Customer)]).map
        Customer.email).Nodup
      rw [List.map_append, List.nodup_append]
      refine ⟨hnodup, by simp, ?_⟩
      intro a ha hb
      simp only [List.map_cons, List.map_nil, List.mem_cons, List.not_mem_nil,
        or_false] at hb
      rw [hb] at ha
      obtain ⟨x, hx, hxeq⟩ := List.mem_map.1 ha
      have hnone := List.find?_eq_none.1 hf x hx
      simp [hxeq] at hnone
    · intro c2 hc2
      rcases List.mem_append.1 hc2 with hin | hin
      · exact Nat.lt_succ_of_lt (hids c2 hin)
      · simp only [List.mem_singleton] at hin
        rw [hin]
        exact Nat.lt_succ_self _

theorem insertTicket_ok_of (db : DB) (cid : Nat) (rc sm cat pr : String) (sc : Rat)
    (hc : categoryEnumVals.contains cat = true) (hp : priorityEnumVals.contains pr = true)
    (hcid : ∃ c ∈ db.customers, c.id = cid) :
    insertTicket db cid rc sm cat pr sc = Except.ok
      ({ db with
          tickets := db.tickets ++
            [{ id := db.nextTicketId, customer_id := cid, raw_content := rc, summary := sm,
               category := cat, priority := pr, sentiment_score := sc }],
          nextTicketId := db.nextTicketId + 1 }, db.nextTicketId) := by
  have hfk : db.customers.any (fun c => c.id == cid) = true := by
    obtain ⟨c, hcm, hcid2⟩ := hcid
    exact List.any_eq_true.2 ⟨c, hcm, by simp [hcid2]⟩
  unfold insertTicket
  rw [if_neg (not_not_intro hc), if_neg (not_not_intro hp), if_neg (not_not_intro hfk)]

theorem save_ticket_ok (db : DB) (em nm rc sm cat pr : String) (sc : Rat)
    (hc : categoryEnumVals.contains cat = true) (hp : priorityEnumVals.contains pr = true) :
    save_ticket db em nm rc sm cat pr sc =
      ({ (upsertCustomer db em nm).1 with
          tickets := (upsertCustomer db em nm).1.tickets ++
            [{ id := (upsertCustomer db em nm).1.nextTicketId,
               customer_id := (upsertCustomer db em nm).2, raw_content := rc, summary := sm,
               category := cat, priority := pr, sentiment_score := sc }],
          nextTicketId := (upsertCustomer db em nm).1.nextTicketId + 1 },
       Except.ok ((upsertCustomer db em nm).2, (upsertCustomer db em nm).1.nextTicketId)) := by
  rw [save_ticket_def]
  rw [insertTicket_ok_of _ _ _ _ _ _ _ hc hp
    (by obtain ⟨c, hcm, hcid, _, _⟩ := upsertCustomer_mem db em nm; exact ⟨c, hcm, hcid⟩)]

/-- C2: under the unique-email index, upserting an absent email creates the one
row for it with the returned id; upserting a present email returns the stored
row's id, updates only that row's name and keeps every other row; and
persisting two tickets with the same email commits both, returns the same
customer id both times — two distinct ids are never created — and leaves
exactly one customer row for that email, carrying the second call's name. -/
theorem customer_upsert_unique (db : DB) (em nm nm2 rc sm cat pr : String) (sc : Rat) :
    (customersFor db em = [] →
      customersFor (upsertCustomer db em nm).1 em =
        [{ id := (upsertCustomer db em nm).2, email := em, name := nm }]) ∧
    (∀ c : Customer, DBInv db → c ∈ db.customers → c.email = em →
      (upsertCustomer db em nm).2 = c.id ∧
      customersFor (upsertCustomer db em nm).1 em = [{ c with name := nm }] ∧
      (∀ c2 ∈ db.customers, c2.email ≠ em → c2 ∈ (upsertCustomer db em nm).1.customers)) ∧
    (DBInv db → categoryEnumVals.contains cat = true → priorityEnumVals.contains pr = true →
      ∃ cid tid tid2 db1 db2,
        save_ticket db em nm rc sm cat pr sc = (db1, Except.ok (cid, tid)) ∧
        save_ticket db1 em nm2 rc sm cat pr sc = (db2, Except.ok (cid, tid2)) ∧
        customersFor db2 em = [{ id := cid, email := em, name := nm2 }]) := by
  refine ⟨?_, ?_, ?_⟩
  · intro h
    have hf : db.customers.find? (fun c => c.email == em) = none := by
      rw [List.find?_eq_none]
      intro x hx hbeq
      have hmem : x ∈ customersFor db em := List.mem_filter.2 ⟨hx, hbeq⟩
      rw [h] at hmem
      cases hmem
    rw [upsert_absent db em nm hf]
    show (db.customers ++
        [({ id := db.nextCustomerId, email := em, name := nm } : Customer)]).filter
      (fun c => c.email == em) = _
    rw [List.filter_append]
    have h1 : db.customers.filter (fun c => c.email == em) = [] := h
    rw [h1]
    simp
  · intro c hinv hc he
    obtain ⟨h1, h2, _, h4⟩ := upsert_present db em nm c hinv.1 hc he
    exact ⟨h1, h2, h4⟩
  · intro hinv hc hp
    have hs1 := save_ticket_ok db em nm rc sm cat pr sc hc hp
    obtain ⟨r1, hr1mem, hr1id, hr1em, hr1nm⟩ := upsertCustomer_mem db em nm
    generalize hdb1 : ({ (upsertCustomer db em nm).1 with
        tickets := (upsertCustomer db em nm).1.tickets ++
          [{ id := (upsertCustomer db em nm).1.nextTicketId,
             customer_id := (upsertCustomer db em nm).2, raw_content := rc, summary := sm,
             category := cat, priority := pr, sentiment_score := sc }],
        nextTicketId := (upsertCustomer db em nm).1.nextTicketId + 1 } : DB) = db1 at hs1
    have hcust1 : db1.customers = (upsertCustomer db em nm).1.customers := by
      rw [← hdb1]
    have hinv1 : DBInv db1 := by
      rw [← hdb1]
      exact upsert_inv db em nm hinv
    have hs2 := save_ticket_ok db1 em nm2 rc sm cat pr sc hc hp
    have hr1mem1 : r1 ∈ db1.customers := by
      rw [hcust1]
      exact hr1mem
    obtain ⟨h21, h22, _, _⟩ := upsert_present db1 em nm2 r1 hinv1.1 hr1mem1 hr1em
    generalize hdb2 : ({ (upsertCustomer db1 em nm2).1 with
        tickets := (upsertCustomer db1 em nm2).1.tickets ++
          [{ id := (upsertCustomer db1 em nm2).1.nextTicketId,
             customer_id := (upsertCustomer db1 em nm2).2, raw_content := rc, summary := sm,
             category := cat, priority := pr, sentiment_score := sc }],
        nextTicketId := (upsertCustomer db1 em nm2).1.nextTicketId + 1 } : DB) = db2 at hs2
    have hcust2 : customersFor db2 em = customersFor (upsertCustomer db1 em nm2).1 em := by
      rw [← hdb2]
      exact rfl
    refine ⟨(upsertCustomer db em nm).2, (upsertCustomer db em nm).1.nextTicketId,
      (upsertCustomer db1 em nm2).1.nextTicketId, db1, db2, hs1, ?_, ?_⟩
    · rw [hs2, h21, hr1id]
    · rw [hcust2, h22]
      cases r1 with
      | mk rid remail rname =>
        simp only at hr1id hr1em
        rw [hr1id, hr1em]

/-- Witness for C2 at concrete inputs: a fresh database, then two saves with
the same email and different names. -/
theorem customer_upsert_unique_witness :
    customersFor (upsertCustomer DB.empty "a@b.co" "Ann").1 "a@b.co" =
      [{ id := (upsertCustomer DB.empty "a@b.co" "Ann").2, email := "a@b.co", name := "Ann" }] ∧
    (∃ cid tid tid2 db1 db2,
      save_ticket DB.empty "a@b.co" "Ann" "r" "s" "billing" "low" 1 =
        (db1, Except.ok (cid, tid)) ∧
      save_ticket db1 "a@b.co" "Beth" "r" "s" "billing" "low" 1 =
        (db2, Except.ok (cid, tid2)) ∧
      customersFor db2 "a@b.co" = [{ id := cid, email := "a@b.co", name := "Beth" }]) := by
  constructor
  · exact (customer_upsert_unique DB.empty "a@b.co" "Ann" "Beth" "r" "s" "billing" "low" 1).1
      (by decide)
  · exact (customer_upsert_unique DB.empty "a@b.co" "Ann" "Beth" "r" "s" "billing" "low" 1).2.2
      ⟨by decide, by intro c hc; cases hc⟩ (by decide) (by decide)

/-- C8: on every run of the single-ticket entry point and of the batch script,
whatever the outside world does, if the pool was opened then it is closed and
the closing is the last event before the process ends; the pool is never left
open on any exit path. -/
theorem pool_closed_on_exit (w : MainWorld) (wb : BatchWorld) (db dbb : DB) :
    (Ev.poolOpened ∈ (mainRun w db).1 →
      (mainRun w db).1.getLast? = some Ev.poolClosed) ∧
    (Ev.poolOpened ∈ (batchRun wb dbb).1 →
      (batchRun wb dbb).1.getLast? = some Ev.poolClosed) := by
  have key : ∀ {α : Type} (evs : List Ev) (dbx : DB) (res : α),
      Ev.poolOpened ∈
        (if Ev.poolOpened ∈ evs then (evs ++ [Ev.poolClosed], dbx, res)
         else (evs, dbx, res)).1 →
      (if Ev.poolOpened ∈ evs then (evs ++ [Ev.poolClosed], dbx, res)
       else (evs, dbx, res)).1.getLast? = some Ev.poolClosed := by
    intro a evs dbx res
    by_cases h : Ev.poolOpened ∈ evs
    · rw [if_pos h]
      intro hmm
      exact List.getLast?_concat _
    · rw [if_neg h]
      exact fun hm => absurd hm h
  constructor
  · unfold mainRun
    rcases mainBody w db with ⟨evs, dbx, res⟩
    exact key evs dbx res
  · unfold batchRun
    rcases batchBody wb dbb with ⟨evs, dbx, res⟩
    exact key evs dbx res

/-- Witness for C8: a run that opens the pool and then fails at the schema
step ends with the closing event, and so does a batch run that fails on its
first ticket. -/
theorem pool_closed_on_exit_witness :
    (mainRun
      { env := envGood, poolOk := Except.ok (), schemaOk := Except.error "ddl failed",
        agentRaw := Except.error "unused" } DB.empty).1.getLast? = some Ev.poolClosed ∧
    (batchRun { env := envGood, poolOk := Except.ok (), agentRaw := [] }
        DB.empty).1.getLast? = some Ev.poolClosed := by
  constructor
  · exact (pool_closed_on_exit
      { env := envGood, poolOk := Except.ok (), schemaOk := Except.error "ddl failed",
        agentRaw := Except.error "unused" }
      { env := envGood, poolOk := Except.ok (), agentRaw := [] } DB.empty DB.empty).1
      (by decide)
  · exact (pool_closed_on_exit
      { env := envGood, poolOk := Except.ok (), schemaOk := Except.error "ddl failed",
        agentRaw := Except.error "unused" }
      { env := envGood, poolOk := Except.ok (), agentRaw := [] } DB.empty DB.empty).2
      (by decide)

theorem validate_ok_fields (r : RawOutput) (t : ProcessedTicket)
    (h : validateProcessedTicket r = some t) :
    categoryEnumVals.contains t.category = true ∧
    priorityEnumVals.contains t.priority = true := by
  unfold validateProcessedTicket at h
  split at h
  · rename_i hcond
    simp only [Bool.and_eq_true] at hcond
    obtain ⟨⟨⟨hc, hp⟩, hg⟩, hl⟩ := hcond
    injection h with h2
    rw [← h2]
    exact ⟨hc, hp⟩
  · cases h

theorem process_ticket_error_eq (r : Except String RawOutput) (db : DB) (c : String)
    (e : String) (h : (process_ticket r db c).2 = Except.error e) :
    (process_ticket r db c).1 = db := by
  unfold process_ticket at h ⊢
  cases hr : classify r with
  | error e2 => rfl
  | ok out =>
    rw [hr] at h
    exact save_ticket_error_eq _ _ _ _ _ _ _ _ _ h

theorem process_ticket_fresh (r : RawOutput) (t : ProcessedTicket) (db : DB) (content : String)
    (hv : validateProcessedTicket r = some t)
    (hf : db.customers.find? (fun c =>
      c.email == (extract_customer_info content).email) = none) :
    process_ticket (Except.ok r) db content =
      ({ customers := db.customers ++
          [{ id := db.nextCustomerId, email := (extract_customer_info content).email,
             name := (extract_customer_info content).name }],
         tickets := db.tickets ++
          [{ id := db.nextTicketId, customer_id := db.nextCustomerId, raw_content := content,
             summary := t.summary, category := t.category, priority := t.priority,
             sentiment_score := t.sentiment_score }],
         nextCustomerId := db.nextCustomerId + 1, nextTicketId := db.nextTicketId + 1 },
       Except.ok (db.nextCustomerId, db.nextTicketId)) := by
  obtain ⟨hc, hp⟩ := validate_ok_fields r t hv
  have hcl : classify (Except.ok r) = Except.ok t := by
    show (match validateProcessedTicket r with
          | some t => Except.ok t
          | none => Except.error "model output failed schema validation") = Except.ok t
    rw [hv]
  show (match classify (Except.ok r) with
        | Except.error e => ((db, Except.error e) : DB × Except String (Nat × Nat))
        | Except.ok out => save_ticket db (extract_customer_info content).email
            (extract_customer_info content).name content out.summary out.category out.priority
            out.sentiment_score) = _
  rw [hcl]
  show save_ticket db (extract_customer_info content).email
      (extract_customer_info content).name content t.summary t.category t.priority
      t.sentiment_score = _
  rw [save_ticket_ok db _ _ _ _ _ _ _ hc hp,
    upsert_absent db ((extract_customer_info content).email)
      ((extract_customer_info content).name) hf]

theorem runBatch_cons_ok (r : Except String RawOutput) (rs2 : List (Except String RawOutput))
    (db db2 : DB) (c : String) (cs : List String) (ids : Nat × Nat)
    (h : process_ticket r db c = (db2, Except.ok ids)) :
    runBatch (r :: rs2) db (c :: cs) =
      (match runBatch rs2 db2 cs with
       | (db3, Except.ok rest) => (db3, Except.ok (ids :: rest))
       | (db3, Except.error e) => (db3, Except.error e)) := by
  show (match process_ticket r db c with
        | (db2, Except.ok ids) =>
          (match runBatch rs2 db2 cs with
           | (db3, Except.ok rest) => (db3, Except.ok (ids :: rest))
           | (db3, Except.error e) => (db3, Except.error e))
        | (db2, Except.error e) => (db2, Except.error e)) = _
  rw [h]

set_option maxRecDepth 100000 in
set_option maxHeartbeats 4000000 in
/-- C9: the batch loop is sequential and aborts on the first failing ticket:
the error is re-raised, the database is exactly as it was before that ticket,
and no later ticket of the list is processed; the batch script still closes
the pool whenever it was opened; and when all six sample tickets — which carry
six distinct emails — classify successfully, the run from a fresh database
commits six distinct customer ids and six distinct ticket ids, both in
submission order. -/
theorem batch_sequential_abort (r1 r2 r3 r4 r5 r6 : RawOutput)
    (t1 t2 t3 t4 t5 t6 : ProcessedTicket)
    (h1 : validateProcessedTicket r1 = some t1) (h2 : validateProcessedTicket r2 = some t2)
    (h3 : validateProcessedTicket r3 = some t3) (h4 : validateProcessedTicket r4 = some t4)
    (h5 : validateProcessedTicket r5 = some t5) (h6 : validateProcessedTicket r6 = some t6) :
    (∀ rs db c cs e,
      (process_ticket (rs.headD (Except.error "missing model response")) db c).2 =
        Except.error e →
      runBatch rs db (c :: cs) = (db, Except.error e)) ∧
    (∀ wb dbx, Ev.poolOpened ∈ (batchRun wb dbx).1 → Ev.poolClosed ∈ (batchRun wb dbx).1) ∧
    (∃ dbf, runBatch [Except.ok r1, Except.ok r2, Except.ok r3, Except.ok r4, Except.ok r5,
        Except.ok r6] DB.empty TEST_TICKETS =
      (dbf, Except.ok [(1, 1), (2, 2), (3, 3), (4, 4), (5, 5), (6, 6)])) := by
  refine ⟨?_, ?_, ?_⟩
  · intro rs db c cs e h
    show (match process_ticket (rs.headD (Except.error "missing model response")) db c with
          | (db2, Except.ok ids) =>
            (match runBatch rs.tail db2 cs with
             | (db3, Except.ok rest) => (db3, Except.ok (ids :: rest))
             | (db3, Except.error e) => (db3, Except.error e))
          | (db2, Except.error e) => (db2, Except.error e)) = (db, Except.error e)
    rcases hp : process_ticket (rs.headD (Except.error "missing model response")) db c
      with ⟨db2, res⟩
    cases res with
    | ok ids =>
      rw [hp] at h
      simp at h
    | error e2 =>
      have hdb : db2 = db := by
        have h0 := process_ticket_error_eq (rs.headD (Except.error "missing model response"))
          db c e2 (by rw [hp])
        rw [hp] at h0
        exact h0
      have he : e2 = e := by
        rw [hp] at h
        simpa using h
      rw [hdb, he]
  · intro wb dbx
    have key : ∀ (evs : List Ev) (dby : DB) (res : Except String (List (Nat × Nat))),
        Ev.poolOpened ∈ (if Ev.poolOpened ∈ evs then (evs ++ [Ev.poolClosed], dby, res)
          else (evs, dby, res)).1 →
        Ev.poolClosed ∈ (if Ev.poolOpened ∈ evs then (evs ++ [Ev.poolClosed], dby, res)
          else (evs, dby, res)).1 := by
      intro evs dby res
      by_cases hmem : Ev.poolOpened ∈ evs
      · rw [if_pos hmem]
        intro hmm
        exact List.mem_append_right _ (List.mem_singleton.2 rfl)
      · rw [if_neg hmem]
        exact fun hm => absurd hm hmem
    unfold batchRun
    rcases batchBody wb dbx with ⟨evs, dby, res⟩
    exact key evs dby res
  ·
    have e0 : extract_customer_info testTicket0 =
        { email := "sarah.johnson@email.com", name := "Sarah Johnson" } := by decide
    have e1 : extract_customer_info testTicket1 =
        { email := "mike.chen@techcorp.com", name := "Mike Chen" } := by decide
    have e2 : extract_customer_info testTicket2 =
        { email := "emma.wilson@design.io", name := "Emma Wilson" } := by decide
    have e3 : extract_customer_info testTicket3 =
        { email := "j.rodriguez@startup.com", name := "James Rodriguez" } := by decide
    have e4 : extract_customer_info testTicket4 =
        { email := "david.park@enterprise.com", name := "David Park" } := by decide
    have e5 : extract_customer_info testTicket5 =
        { email := "lisa.anderson@creative.co", name := "Lisa Anderson" } := by decide
    have s0 : process_ticket (Except.ok r1) DB.empty testTicket0 = (({ customers := [{ id := 1, email := "sarah.johnson@email.com", name := "Sarah Johnson" }], tickets := [{ id := 1, customer_id := 1, raw_content := testTicket0, summary := t1.summary, category := t1.category, priority := t1.priority, sentiment_score := t1.sentiment_score }], nextCustomerId := 2, nextTicketId := 2 } : DB), Except.ok (1, 1)) := by
      have h := process_ticket_fresh r1 t1 DB.empty testTicket0 h1 (by rfl)
      rw [e0] at h
      exact h
    have s1 : process_ticket (Except.ok r2) ({ customers := [{ id := 1, email := "sarah.johnson@email.com", name := "Sarah Johnson" }], tickets := [{ id := 1, customer_id := 1, raw_content := testTicket0, summary := t1.summary, category := t1.category, priority := t1.priority, sentiment_score := t1.sentiment_score }], nextCustomerId := 2, nextTicketId := 2 } : DB) testTicket1 = (({ customers := [{ id := 1, email := "sarah.johnson@email.com", name := "Sarah Johnson" }, { id := 2, email := "mike.chen@techcorp.com", name := "Mike Chen" }], tickets := [{ id := 1, customer_id := 1, raw_content := testTicket0, summary := t1.summary, category := t1.category, priority := t1.priority, sentiment_score := t1.sentiment_score }, { id := 2, customer_id := 2, raw_content := testTicket1, summary := t2.summary, category := t2.category, priority := t2.priority, sentiment_score := t2.sentiment_score }], nextCustomerId := 3, nextTicketId := 3 } : DB), Except.ok (2, 2)) := by
      have h := process_ticket_fresh r2 t2 ({ customers := [{ id := 1, email := "sarah.johnson@email.com", name := "Sarah Johnson" }], tickets := [{ id := 1, customer_id := 1, raw_content := testTicket0, summary := t1.summary, category := t1.category, priority := t1.priority, sentiment_score := t1.sentiment_score }], nextCustomerId := 2, nextTicketId := 2 } : DB) testTicket1 h2 (show List.find? (fun c : Customer => c.email == (extract_customer_info testTicket1).email) [{ id := 1, email := "sarah.johnson@email.com", name := "Sarah Johnson" }] = none by rw [e1]; decide)
      rw [e1] at h
      exact h
    have s2 : process_ticket (Except.ok r3) ({ customers := [{ id := 1, email := "sarah.johnson@email.com", name := "Sarah Johnson" }, { id := 2, email := "mike.chen@techcorp.com", name := "Mike Chen" }], tickets := [{ id := 1, customer_id := 1, raw_content := testTicket0, summary := t1.summary, category := t1.category, priority := t1.priority, sentiment_score := t1.sentiment_score }, { id := 2, customer_id := 2, raw_content := testTicket1, summary := t2.summary, category := t2.category, priority := t2.priority, sentiment_score := t2.sentiment_score }], nextCustomerId := 3, nextTicketId := 3 } : DB) testTicket2 = (({ customers := [{ id := 1, email := "sarah.johnson@email.com", name := "Sarah Johnson" }, { id := 2, email := "mike.chen@techcorp.com", name := "Mike Chen" }, { id := 3, email := "emma.wilson@design.io", name := "Emma Wilson" }], tickets := [{ id := 1, customer_id := 1, raw_content := testTicket0, summary := t1.summary, category := t1.category, priority := t1.priority, sentiment_score := t1.sentiment_score }, { id := 2, customer_id := 2, raw_content := testTicket1, summary := t2.summary, category := t2.category, priority := t2.priority, sentiment_score := t2.sentiment_score }, { id := 3, customer_id := 3, raw_content := testTicket2, summary := t3.summary, category := t3.category, priority := t3.priority, sentiment_score := t3.sentiment_score }], nextCustomerId := 4, nextTicketId := 4 } : DB), Except.ok (3, 3)) := by
      have h := process_ticket_fresh r3 t3 ({ customers := [{ id := 1, email := "sarah.johnson@email.com", name := "Sarah Johnson" }, { id := 2, email := "mike.chen@techcorp.com", name := "Mike Chen" }], tickets := [{ id := 1, customer_id := 1, raw_content := testTicket0, summary := t1.summary, category := t1.category, priority := t1.priority, sentiment_score := t1.sentiment_score }, { id := 2, customer_id := 2, raw_content := testTicket1, summary := t2.summary, category := t2.category, priority := t2.priority, sentiment_score := t2.sentiment_score }], nextCustomerId := 3, nextTicketId := 3 } : DB) testTicket2 h3 (show List.find? (fun c : Customer => c.email == (extract_customer_info testTicket2).email) [{ id := 1, email := "sarah.johnson@email.com", name := "Sarah Johnson" }, { id := 2, email := "mike.chen@techcorp.com", name := "Mike Chen" }] = none by rw [e2]; decide)
      rw [e2] at h
      exact h
    have s3 : process_ticket (Except.ok r4) ({ customers := [{ id := 1, email := "sarah.johnson@email.com", name := "Sarah Johnson" }, { id := 2, email := "mike.chen@techcorp.com", name := "Mike Chen" }, { id := 3, email := "emma.wilson@design.io", name := "Emma Wilson" }], tickets := [{ id := 1, customer_id := 1, raw_content := testTicket0, summary := t1.summary, category := t1.category, priority := t1.priority, sentiment_score := t1.sentiment_score }, { id := 2, customer_id := 2, raw_content := testTicket1, summary := t2.summary, category := t2.category, priority := t2.priority, sentiment_score := t2.sentiment_score }, { id := 3, customer_id := 3, raw_content := testTicket2, summary := t3.summary, category := t3.category, priority := t3.priority, sentiment_score := t3.sentiment_score }], nextCustomerId := 4, nextTicketId := 4 } : DB) testTicket3 = (({ customers := [{ id := 1, email := "sarah.johnson@email.com", name := "Sarah Johnson" }, { id := 2, email := "mike.chen@techcorp.com", name := "Mike Chen" }, { id := 3, email := "emma.wilson@design.io", name := "Emma Wilson" }, { id := 4, email := "j.rodriguez@startup.com", name := "James Rodriguez" }], tickets := [{ id := 1, customer_id := 1, raw_content := testTicket0, summary := t1.summary, category := t1.category, priority := t1.priority, sentiment_score := t1.sentiment_score }, { id := 2, customer_id := 2, raw_content := testTicket1, summary := t2.summary, category := t2.category, priority := t2.priority, sentiment_score := t2.sentiment_score }, { id := 3, customer_id := 3, raw_content := testTicket2, summary := t3.summary, category := t3.category, priority := t3.priority, sentiment_score := t3.sentiment_score }, { id := 4, customer_id := 4, raw_content := testTicket3, summary := t4.summary, category := t4.category, priority := t4.priority, sentiment_score := t4.sentiment_score }], nextCustomerId := 5, nextTicketId := 5 } : DB), Except.ok (4, 4)) := by
      have h := process_ticket_fresh r4 t4 ({ customers := [{ id := 1, email := "sarah.johnson@email.com", name := "Sarah Johnson" }, { id := 2, email := "mike.chen@techcorp.com", name := "Mike Chen" }, { id := 3, email := "emma.wilson@design.io", name := "Emma Wilson" }], tickets := [{ id := 1, customer_id := 1, raw_content := testTicket0, summary := t1.summary, category := t1.category, priority := t1.priority, sentiment_score := t1.sentiment_score }, { id := 2, customer_id := 2, raw_content := testTicket1, summary := t2.summary, category := t2.category, priority := t2.priority, sentiment_score := t2.sentiment_score }, { id := 3, customer_id := 3, raw_content := testTicket2, summary := t3.summary, category := t3.category, priority := t3.priority, sentiment_score := t3.sentiment_score }], nextCustomerId := 4, nextTicketId := 4 } : DB) testTicket3 h4 (show List.find? (fun c : Customer => c.email == (extract_customer_info testTicket3).email) [{ id := 1, email := "sarah.johnson@email.com", name := "Sarah Johnson" }, { id := 2, email := "mike.chen@techcorp.com", name := "Mike Chen" }, { id := 3, email := "emma.wilson@design.io", name := "Emma Wilson" }] = none by rw [e3]; decide)
      rw [e3] at h
      exact h
    have s4 : process_ticket (Except.ok r5) ({ customers := [{ id := 1, email := "sarah.johnson@email.com", name := "Sarah Johnson" }, { id := 2, email := "mike.chen@techcorp.com", name := "Mike Chen" }, { id := 3, email := "emma.wilson@design.io", name := "Emma Wilson" }, { id := 4, email := "j.rodriguez@startup.com", name := "James Rodriguez" }], tickets := [{ id := 1, customer_id := 1, raw_content := testTicket0, summary := t1.summary, category := t1.category, priority := t1.priority, sentiment_score := t1.sentiment_score }, { id := 2, customer_id := 2, raw_content := testTicket1, summary := t2.summary, category := t2.category, priority := t2.priority, sentiment_score := t2.sentiment_score }, { id := 3, customer_id := 3, raw_content := testTicket2, summary := t3.summary, category := t3.category, priority := t3.priority, sentiment_score := t3.sentiment_score }, { id := 4, customer_id := 4, raw_content := testTicket3, summary := t4.summary, category := t4.category, priority := t4.priority, sentiment_score := t4.sentiment_score }], nextCustomerId := 5, nextTicketId := 5 } : DB) testTicket4 = (({ customers := [{ id := 1, email := "sarah.johnson@email.com", name := "Sarah Johnson" }, { id := 2, email := "mike.chen@techcorp.com", name := "Mike Chen" }, { id := 3, email := "emma.wilson@design.io", name := "Emma Wilson" }, { id := 4, email := "j.rodriguez@startup.com", name := "James Rodriguez" }, { id := 5, email := "david.park@enterprise.com", name := "David Park" }], tickets := [{ id := 1, customer_id := 1, raw_content := testTicket0, summary := t1.summary, category := t1.category, priority := t1.priority, sentiment_score := t1.sentiment_score }, { id := 2, customer_id := 2, raw_content := testTicket1, summary := t2.summary, category := t2.category, priority := t2.priority, sentiment_score := t2.sentiment_score }, { id := 3, customer_id := 3, raw_content := testTicket2, summary := t3.summary, category := t3.category, priority := t3.priority, sentiment_score := t3.sentiment_score }, { id := 4, customer_id := 4, raw_content := testTicket3, summary := t4.summary, category := t4.category, priority := t4.priority, sentiment_score := t4.sentiment_score }, { id := 5, customer_id := 5, raw_content := testTicket4, summary := t5.summary, category := t5.category, priority := t5.priority, sentiment_score := t5.sentiment_score }], nextCustomerId := 6, nextTicketId := 6 } : DB), Except.ok (5, 5)) := by
      have h := process_ticket_fresh r5 t5 ({ customers := [{ id := 1, email := "sarah.johnson@email.com", name := "Sarah Johnson" }, { id := 2, email := "mike.chen@techcorp.com", name := "Mike Chen" }, { id := 3, email := "emma.wilson@design.io", name := "Emma Wilson" }, { id := 4, email := "j.rodriguez@startup.com", name := "James Rodriguez" }], tickets := [{ id := 1, customer_id := 1, raw_content := testTicket0, summary := t1.summary, category := t1.category, priority := t1.priority, sentiment_score := t1.sentiment_score }, { id := 2, customer_id := 2, raw_content := testTicket1, summary := t2.summary, category := t2.category, priority := t2.priority, sentiment_score := t2.sentiment_score }, { id := 3, customer_id := 3, raw_content := testTicket2, summary := t3.summary, category := t3.category, priority := t3.priority, sentiment_score := t3.sentiment_score }, { id := 4, customer_id := 4, raw_content := testTicket3, summary := t4.summary, category := t4.category, priority := t4.priority, sentiment_score := t4.sentiment_score }], nextCustomerId := 5, nextTicketId := 5 } : DB) testTicket4 h5 (show List.find? (fun c : Customer => c.email == (extract_customer_info testTicket4).email) [{ id := 1, email := "sarah.johnson@email.com", name := "Sarah Johnson" }, { id := 2, email := "mike.chen@techcorp.com", name := "Mike Chen" }, { id := 3, email := "emma.wilson@design.io", name := "Emma Wilson" }, { id := 4, email := "j.rodriguez@startup.com", name := "James Rodriguez" }] = none by rw [e4]; decide)
      rw [e4] at h
      exact h
    have s5 : process_ticket (Except.ok r6) ({ customers := [{ id := 1, email := "sarah.johnson@email.com", name := "Sarah Johnson" }, { id := 2, email := "mike.chen@techcorp.com", name := "Mike Chen" }, { id := 3, email := "emma.wilson@design.io", name := "Emma Wilson" }, { id := 4, email := "j.rodriguez@startup.com", name := "James Rodriguez" }, { id := 5, email := "david.park@enterprise.com", name := "David Park" }], tickets := [{ id := 1, customer_id := 1, raw_content := testTicket0, summary := t1.summary, category := t1.category, priority := t1.priority, sentiment_score := t1.sentiment_score }, { id := 2, customer_id := 2, raw_content := testTicket1, summary := t2.summary, category := t2.category, priority := t2.priority, sentiment_score := t2.sentiment_score }, { id := 3, customer_id := 3, raw_content := testTicket2, summary := t3.summary, category := t3.category, priority := t3.priority, sentiment_score := t3.sentiment_score }, { id := 4, customer_id := 4, raw_content := testTicket3, summary := t4.summary, category := t4.category, priority := t4.priority, sentiment_score := t4.sentiment_score }, { id := 5, customer_id := 5, raw_content := testTicket4, summary := t5.summary, category := t5.category, priority := t5.priority, sentiment_score := t5.sentiment_score }], nextCustomerId := 6, nextTicketId := 6 } : DB) testTicket5 = (({ customers := [{ id := 1, email := "sarah.johnson@email.com", name := "Sarah Johnson" }, { id := 2, email := "mike.chen@techcorp.com", name := "Mike Chen" }, { id := 3, email := "emma.wilson@design.io", name := "Emma Wilson" }, { id := 4, email := "j.rodriguez@startup.com", name := "James Rodriguez" }, { id := 5, email := "david.park@enterprise.com", name := "David Park" }, { id := 6, email := "lisa.anderson@creative.co", name := "Lisa Anderson" }], tickets := [{ id := 1, customer_id := 1, raw_content := testTicket0, summary := t1.summary, category := t1.category, priority := t1.priority, sentiment_score := t1.sentiment_score }, { id := 2, customer_id := 2, raw_content := testTicket1, summary := t2.summary, category := t2.category, priority := t2.priority, sentiment_score := t2.sentiment_score }, { id := 3, customer_id := 3, raw_content := testTicket2, summary := t3.summary, category := t3.category, priority := t3.priority, sentiment_score := t3.sentiment_score }, { id := 4, customer_id := 4, raw_content := testTicket3, summary := t4.summary, category := t4.category, priority := t4.priority, sentiment_score := t4.sentiment_score }, { id := 5, customer_id := 5, raw_content := testTicket4, summary := t5.summary, category := t5.category, priority := t5.priority, sentiment_score := t5.sentiment_score }, { id := 6, customer_id := 6, raw_content := testTicket5, summary := t6.summary, category := t6.category, priority := t6.priority, sentiment_score := t6.sentiment_score }], nextCustomerId := 7, nextTicketId := 7 } : DB), Except.ok (6, 6)) := by
      have h := process_ticket_fresh r6 t6 ({ customers := [{ id := 1, email := "sarah.johnson@email.com", name := "Sarah Johnson" }, { id := 2, email := "mike.chen@techcorp.com", name := "Mike Chen" }, { id := 3, email := "emma.wilson@design.io", name := "Emma Wilson" }, { id := 4, email := "j.rodriguez@startup.com", name := "James Rodriguez" }, { id := 5, email := "david.park@enterprise.com", name := "David Park" }], tickets := [{ id := 1, customer_id := 1, raw_content := testTicket0, summary := t1.summary, category := t1.category, priority := t1.priority, sentiment_score := t1.sentiment_score }, { id := 2, customer_id := 2, raw_content := testTicket1, summary := t2.summary, category := t2.category, priority := t2.priority, sentiment_score := t2.sentiment_score }, { id := 3, customer_id := 3, raw_content := testTicket2, summary := t3.summary, category := t3.category, priority := t3.priority, sentiment_score := t3.sentiment_score }, { id := 4, customer_id := 4, raw_content := testTicket3, summary := t4.summary, category := t4.category, priority := t4.priority, sentiment_score := t4.sentiment_score }, { id := 5, customer_id := 5, raw_content := testTicket4, summary := t5.summary, category := t5.category, priority := t5.priority, sentiment_score := t5.sentiment_score }], nextCustomerId := 6, nextTicketId := 6 } : DB) testTicket5 h6 (show List.find? (fun c : Customer => c.email == (extract_customer_info testTicket5).email) [{ id := 1, email := "sarah.johnson@email.com", name := "Sarah Johnson" }, { id := 2, email := "mike.chen@techcorp.com", name := "Mike Chen" }, { id := 3, email := "emma.wilson@design.io", name := "Emma Wilson" }, { id := 4, email := "j.rodriguez@startup.com", name := "James Rodriguez" }, { id := 5, email := "david.park@enterprise.com", name := "David Park" }] = none by rw [e5]; decide)
      rw [e5] at h
      exact h
    refine ⟨({ customers := [{ id := 1, email := "sarah.johnson@email.com", name := "Sarah Johnson" }, { id := 2, email := "mike.chen@techcorp.com", name := "Mike Chen" }, { id := 3, email := "emma.wilson@design.io", name := "Emma Wilson" }, { id := 4, email := "j.rodriguez@startup.com", name := "James Rodriguez" }, { id := 5, email := "david.park@enterprise.com", name := "David Park" }, { id := 6, email := "lisa.anderson@creative.co", name := "Lisa Anderson" }], tickets := [{ id := 1, customer_id := 1, raw_content := testTicket0, summary := t1.summary, category := t1.category, priority := t1.priority, sentiment_score := t1.sentiment_score }, { id := 2, customer_id := 2, raw_content := testTicket1, summary := t2.summary, category := t2.category, priority := t2.priority, sentiment_score := t2.sentiment_score }, { id := 3, customer_id := 3, raw_content := testTicket2, summary := t3.summary, category := t3.category, priority := t3.priority, sentiment_score := t3.sentiment_score }, { id := 4, customer_id := 4, raw_content := testTicket3, summary := t4.summary, category := t4.category, priority := t4.priority, sentiment_score := t4.sentiment_score }, { id := 5, customer_id := 5, raw_content := testTicket4, summary := t5.summary, category := t5.category, priority := t5.priority, sentiment_score := t5.sentiment_score }, { id := 6, customer_id := 6, raw_content := testTicket5, summary := t6.summary, category := t6.category, priority := t6.priority, sentiment_score := t6.sentiment_score }], nextCustomerId := 7, nextTicketId := 7 } : DB), ?_⟩
    rw [show TEST_TICKETS = [testTicket0, testTicket1, testTicket2, testTicket3, testTicket4,
      testTicket5] from rfl]
    rw [runBatch_cons_ok (Except.ok r1) [Except.ok r2, Except.ok r3, Except.ok r4, Except.ok r5, Except.ok r6] _ _ _ _ _ s0]
    rw [runBatch_cons_ok (Except.ok r2) [Except.ok r3, Except.ok r4, Except.ok r5, Except.ok r6] _ _ _ _ _ s1]
    rw [runBatch_cons_ok (Except.ok r3) [Except.ok r4, Except.ok r5, Except.ok r6] _ _ _ _ _ s2]
    rw [runBatch_cons_ok (Except.ok r4) [Except.ok r5, Except.ok r6] _ _ _ _ _ s3]
    rw [runBatch_cons_ok (Except.ok r5) [Except.ok r6] _ _ _ _ _ s4]
    rw [runBatch_cons_ok (Except.ok r6) ([] : List (Except String RawOutput)) _ _ _ _ _ s5]
    rfl

/-- Witness for C9: six concrete valid responses processed from the fresh
database produce the six ordered id pairs, and the empty response list makes
the loop abort on the first ticket with the database untouched. -/
theorem batch_sequential_abort_witness :
    (∃ dbf, runBatch [Except.ok (rawGood 1), Except.ok (rawGood 2), Except.ok (rawGood 3),
        Except.ok (rawGood 4), Except.ok (rawGood 5), Except.ok (rawGood 6)] DB.empty
        TEST_TICKETS =
      (dbf, Except.ok [(1, 1), (2, 2), (3, 3), (4, 4), (5, 5), (6, 6)])) ∧
    runBatch [] DB.empty TEST_TICKETS = (DB.empty, Except.error "missing model response") := by
  constructor
  · exact (batch_sequential_abort (rawGood 1) (rawGood 2) (rawGood 3) (rawGood 4) (rawGood 5)
      (rawGood 6) (procGood 1) (procGood 2) (procGood 3) (procGood 4) (procGood 5)
      (procGood 6) (by decide) (by decide) (by decide) (by decide) (by decide)
      (by decide)).2.2
  · exact (batch_sequential_abort (rawGood 1) (rawGood 2) (rawGood 3) (rawGood 4) (rawGood 5)
      (rawGood 6) (procGood 1) (procGood 2) (procGood 3) (procGood 4) (procGood 5)
      (procGood 6) (by decide) (by decide) (by decide) (by decide) (by decide)
      (by decide)).1 [] DB.empty testTicket0
      [testTicket1, testTicket2, testTicket3, testTicket4, testTicket5]
      "missing model response" (by decide)

end TC
